import Mathlib

/-!
Verification development for the energy-firmware-services CLI engine.

Each C function that the claims touch is embedded as an executable Lean
definition over explicit state records.  Machine integers are modelled as
`Nat`/`Int` with explicit reduction modulo `2^32` at the points where the C
code performs `uint32_t`/`int32_t` arithmetic.
-/

namespace EnergyFw

/-! ## Circular buffer (src/services/include/adi_circ_buf.h)

`uint8_t *pBase` together with the bytes it points at is modelled as
`data : List Nat`; all other fields are kept under their C names.  The
`volatile` qualifiers only matter for cross-context interleaving, which the
claims about this header do not exercise.  -/

/-- `2^32`, the modulus of `uint32_t` arithmetic. -/
def M32 : Nat := 4294967296

/-- `2^31`, the first bit pattern that is negative as an `int32_t`. -/
def H32 : Nat := 2147483648

/-- Reinterpret a `uint32_t` bit pattern as a signed `int32_t` value
(the effect of the C casts `(int32_t)` applied to unsigned expressions). -/
def toInt32 (n : Nat) : Int :=
  if n % M32 < H32 then ((n % M32 : Nat) : Int) else ((n % M32 : Nat) : Int) - (M32 : Int)

/-- Cast an `int32_t` value to `uint32_t` (the C cast `(uint32_t)`). -/
def toUInt32c (i : Int) : Nat := (i % (M32 : Int)).toNat

/-- `uint32_t` subtraction `a - b` (wraparound modulo `2^32`). -/
def u32sub (a b : Nat) : Nat := (a % M32 + M32 - b % M32) % M32

/-- The `ADI_CIRC_BUF` structure.  `data` stands for the byte region behind
`pBase`. -/
structure ADI_CIRC_BUF where
  nSize : Nat
  nReadIndex : Nat
  nWriteIndex : Nat
  data : List Nat
  deriving DecidableEq

/-- `ADICircBufGetNumBytesAvailable`: `(int32_t)(nWriteOffset - nReadOffset)`,
then add `nSize` if negative. -/
def ADICircBufGetNumBytesAvailable (b : ADI_CIRC_BUF) : Int :=
  let nDataAvailable := toInt32 (u32sub b.nWriteIndex b.nReadIndex)
  if nDataAvailable < 0 then nDataAvailable + b.nSize else nDataAvailable

/-- `ADICircBufGetSpaceAvailable`: `(int32_t)(nReadOffset - nWriteOffset - 4u)`,
then add `nSize` if negative. -/
def ADICircBufGetSpaceAvailable (b : ADI_CIRC_BUF) : Int :=
  let nSpaceAvailable := toInt32 (u32sub (u32sub b.nReadIndex b.nWriteIndex) 4)
  if nSpaceAvailable < 0 then nSpaceAvailable + b.nSize else nSpaceAvailable

/-- The in-loop offset correction `if (nOffset >= nSize) nOffset -= nSize`. -/
def wrapOff (size off : Nat) : Nat := if size ≤ off then off - size else off

/-- The copy loop of `ADICircBufWrite`: at each iteration the offset is
reduced by `nSize` once if it reached it, the byte is stored, and the offset
is incremented.  Returns the updated byte region and the final offset. -/
def circCopy (data : List Nat) (size off : Nat) (src : List Nat) : List Nat × Nat :=
  match src with
  | [] => (data, off)
  | c :: rest => circCopy (data.set (wrapOff size off) c) size (wrapOff size off + 1) rest

/-- The offset evolution shared by the read/query loops of the header. -/
def circReadOff (size off n : Nat) : Nat :=
  match n with
  | 0 => off
  | n + 1 => circReadOff size (wrapOff size off + 1) n

/-- The bytes collected by the read/query loops. -/
def circReadBytes (data : List Nat) (size off n : Nat) : List Nat :=
  match n with
  | 0 => []
  | n + 1 => data.getD (wrapOff size off) 0 :: circReadBytes data size (wrapOff size off + 1) n

/-- `ADICircBufWrite`: all bytes are copied and `nWriteIndex` updated only if
`(uint32_t)nSpaceAvailable >= nNumBytes`; otherwise the result is `1` and the
structure is untouched. -/
def ADICircBufWrite (b : ADI_CIRC_BUF) (src : List Nat) : Int × ADI_CIRC_BUF :=
  if src.length ≤ toUInt32c (ADICircBufGetSpaceAvailable b) then
    (0, { b with data := (circCopy b.data b.nSize b.nWriteIndex src).1,
                 nWriteIndex := (circCopy b.data b.nSize b.nWriteIndex src).2 })
  else
    (1, b)

/-- `ADICircBufRead`: bytes are copied out and `nReadIndex` updated when
`(uint32_t)nNumBytesAvailable >= nReqBytes`; on failure the unconditional
`nReadIndex = nOffset` store writes back the unchanged initial offset. -/
def ADICircBufRead (b : ADI_CIRC_BUF) (n : Nat) : Int × List Nat × ADI_CIRC_BUF :=
  if n ≤ toUInt32c (ADICircBufGetNumBytesAvailable b) then
    (0, circReadBytes b.data b.nSize b.nReadIndex n,
     { b with nReadIndex := circReadOff b.nSize b.nReadIndex n })
  else
    (1, [], b)

/-- `ADICircBufQuery`: like a read but `nReadIndex` is never written back. -/
def ADICircBufQuery (b : ADI_CIRC_BUF) (n : Nat) : Int × List Nat :=
  if n ≤ toUInt32c (ADICircBufGetNumBytesAvailable b) then
    (0, circReadBytes b.data b.nSize b.nReadIndex n)
  else
    (1, [])

/-- The `nReadIndex` computed by `ADICircBufFlush`: the request is clamped to
the available count, added to `nReadIndex` (`uint32_t` addition), and the index
reduced by `nSize` once if it reached it. -/
def flushNewReadIndex (b : ADI_CIRC_BUF) (n : Nat) : Nat :=
  wrapOff b.nSize
    ((b.nReadIndex +
        (if toUInt32c (ADICircBufGetNumBytesAvailable b) < n then
          toUInt32c (ADICircBufGetNumBytesAvailable b) else n)) % M32)

/-- `ADICircBufFlush` always returns `0` and only moves `nReadIndex`. -/
def ADICircBufFlush (b : ADI_CIRC_BUF) (n : Nat) : Int × ADI_CIRC_BUF :=
  (0, { b with nReadIndex := flushNewReadIndex b n })

/-- One caller-visible circular-buffer operation. -/
inductive CircBufOp where
  | write (src : List Nat)
  | read (n : Nat)
  | query (n : Nat)
  | skip (n : Nat)
  deriving DecidableEq

/-- Whether an operation is the `ADICircBufFlush` (skip) operation. -/
def CircBufOp.isSkip : CircBufOp → Bool
  | .skip _ => true
  | _ => false

/-- State effect of one operation. -/
def circBufStep (b : ADI_CIRC_BUF) (op : CircBufOp) : ADI_CIRC_BUF :=
  match op with
  | .write src => (ADICircBufWrite b src).2
  | .read n => (ADICircBufRead b n).2.2
  | .query _ => b
  | .skip n => (ADICircBufFlush b n).2

/-- Run a sequence of operations. -/
def circBufRun (b : ADI_CIRC_BUF) (ops : List CircBufOp) : ADI_CIRC_BUF :=
  ops.foldl circBufStep b

/-- A buffer as initialised by `InitCircBuff`: both indices zero. -/
def circBufInit (size : Nat) (backing : List Nat) : ADI_CIRC_BUF :=
  ⟨size, 0, 0, backing⟩

/-! ## Claims C1 and C2: ring-buffer conservation and all-or-nothing write -/


/-- `(uint32_t)` cast of a nonnegative `int32_t` value below `2^32` is the
identity. -/
lemma toUInt32c_of_nonneg {i : Int} (h0 : 0 ≤ i) (h1 : i < (M32 : Int)) :
    (toUInt32c i : Int) = i := by
  unfold toUInt32c
  rw [Int.emod_eq_of_lt h0 (by exact_mod_cast h1)]
  exact Int.toNat_of_nonneg h0

/-- Closed form of `ADICircBufGetNumBytesAvailable` for in-range indices. -/
lemma avail_eq (size r w : Nat) (data : List Nat) (hr : r ≤ size) (hw : w ≤ size)
    (hsz : size ≤ 2147483643) :
    ADICircBufGetNumBytesAvailable ⟨size, r, w, data⟩ =
      if r ≤ w then ((w : Int) - r) else ((size : Int) + w - r) := by
  simp only [ADICircBufGetNumBytesAvailable, u32sub, toInt32, M32, H32]
  split_ifs <;> omega

/-- Closed form of `ADICircBufGetSpaceAvailable` for in-range indices. -/
lemma space_eq (size r w : Nat) (data : List Nat) (hr : r ≤ size) (hw : w ≤ size)
    (hsz : size ≤ 2147483643) :
    ADICircBufGetSpaceAvailable ⟨size, r, w, data⟩ =
      if w + 4 ≤ r then ((r : Int) - w - 4) else ((size : Int) + r - w - 4) := by
  simp only [ADICircBufGetSpaceAvailable, u32sub, toInt32, M32, H32]
  split_ifs <;> omega

/-- The reachable-state invariant of the circular buffer: in-range indices and
an in-range fill level. -/
def CircBufInv (b : ADI_CIRC_BUF) : Prop :=
  b.nReadIndex ≤ b.nSize ∧ b.nWriteIndex ≤ b.nSize ∧
  0 ≤ ADICircBufGetNumBytesAvailable b ∧
  ADICircBufGetNumBytesAvailable b ≤ (b.nSize : Int) - 4

/-- Under the invariant, the two counters always sum to `nSize - 4`. -/
lemma sum_eq_of_inv (b : ADI_CIRC_BUF) (hsz : b.nSize ≤ 2147483643) (h : CircBufInv b) :
    ADICircBufGetNumBytesAvailable b + ADICircBufGetSpaceAvailable b = (b.nSize : Int) - 4 := by
  obtain ⟨size, r, w, data⟩ := b
  obtain ⟨hr, hw, h0, h1⟩ := h
  simp only at hr hw h0 h1 hsz
  rw [avail_eq size r w data hr hw hsz] at h0 h1 ⊢
  rw [space_eq size r w data hr hw hsz]
  simp only
  split_ifs at * <;> omega

lemma wrapOff_mod {size off : Nat} (h : off ≤ size) : wrapOff size off = off % size := by
  unfold wrapOff
  split
  · have hoff : off = size := le_antisymm h (by assumption)
    rw [hoff, Nat.mod_self]
    omega
  · rw [Nat.mod_eq_of_lt (by omega)]

lemma wrapOff_le {size off : Nat} (hs : 0 < size) (h : off ≤ size) :
    wrapOff size off + 1 ≤ size := by
  unfold wrapOff
  split <;> omega

/-- The read/copy offset stays within `[0, size]`. -/
lemma circReadOff_le (size : Nat) (hs : 0 < size) :
    ∀ (n off : Nat), off ≤ size → circReadOff size off n ≤ size := by
  intro n
  induction n with
  | zero => intro off h; simpa [circReadOff] using h
  | succ n ih =>
      intro off h
      rw [show circReadOff size off (n + 1) = circReadOff size (wrapOff size off + 1) n from rfl]
      exact ih _ (wrapOff_le hs h)

/-- The final offset is the start plus the count, modulo `size`. -/
lemma circReadOff_mod (size : Nat) (hs : 0 < size) :
    ∀ (n off : Nat), off ≤ size → circReadOff size off n % size = (off + n) % size := by
  intro n
  induction n with
  | zero => intro off h; rfl
  | succ n ih =>
      intro off h
      rw [show circReadOff size off (n + 1) = circReadOff size (wrapOff size off + 1) n from rfl]
      rw [ih _ (wrapOff_le hs h), wrapOff_mod h]
      rw [show off % size + 1 + n = off % size + (1 + n) from by omega, Nat.mod_add_mod]
      congr 1
      omega

/-- After at least one iteration the offset is at least `1`. -/
lemma circReadOff_pos (size : Nat) :
    ∀ (n off : Nat), 1 ≤ n → 1 ≤ circReadOff size off n := by
  intro n
  induction n with
  | zero => omega
  | succ n ih =>
      intro off _
      rw [show circReadOff size off (n + 1) = circReadOff size (wrapOff size off + 1) n from rfl]
      cases n with
      | zero => simp [circReadOff]
      | succ m => exact ih _ (by omega)

/-- The offset component of the write loop agrees with `circReadOff`. -/
lemma circCopy_snd (size : Nat) :
    ∀ (src data : List Nat) (off : Nat),
      (circCopy data size off src).2 = circReadOff size off src.length := by
  intro src
  induction src with
  | nil => intro data off; rfl
  | cons c rest ih =>
      intro data off
      rw [show circCopy data size off (c :: rest)
            = circCopy (data.set (wrapOff size off) c) size (wrapOff size off + 1) rest from rfl]
      rw [ih]
      rfl

/-- The write loop preserves the length of the byte region. -/
lemma circCopy_fst_length (size : Nat) :
    ∀ (src data : List Nat) (off : Nat),
      (circCopy data size off src).1.length = data.length := by
  intro src
  induction src with
  | nil => intro data off; rfl
  | cons c rest ih =>
      intro data off
      rw [show circCopy data size off (c :: rest)
            = circCopy (data.set (wrapOff size off) c) size (wrapOff size off + 1) rest from rfl]
      rw [ih]
      simp

lemma mod_char_le {x m : Nat} (hm : 0 < m) (h : x ≤ m) :
    (x < m ∧ x % m = x) ∨ (x = m ∧ x % m = 0) := by
  rcases Nat.lt_or_ge x m with hlt | hge
  · exact Or.inl ⟨hlt, Nat.mod_eq_of_lt hlt⟩
  · have hx : x = m := le_antisymm h hge
    exact Or.inr ⟨hx, by rw [hx]; exact Nat.mod_self _⟩

lemma mod_char_two {x m : Nat} (h : x < 2 * m) :
    (x < m ∧ x % m = x) ∨ (m ≤ x ∧ x % m = x - m) := by
  rcases Nat.lt_or_ge x m with hlt | hge
  · exact Or.inl ⟨hlt, Nat.mod_eq_of_lt hlt⟩
  · refine Or.inr ⟨hge, ?_⟩
    rw [Nat.mod_eq_sub_mod hge, Nat.mod_eq_of_lt (by omega)]

/-- Arithmetic core of the write-preservation argument: bounds on the new fill
level after the write index moves forward by `len` modulo `size`. -/
lemma availBounds_after_write (size r w c2 len : Nat)
    (hr : r ≤ size) (hw : w ≤ size) (h4 : 4 ≤ size)
    (hwle : c2 ≤ size)
    (hmod : c2 % size = (w + len) % size)
    (hz : len = 0 → c2 = w)
    (h0 : 0 ≤ (if r ≤ w then ((w : Int) - r) else ((size : Int) + w - r)))
    (h1 : (if r ≤ w then ((w : Int) - r) else ((size : Int) + w - r)) ≤ (size : Int) - 4)
    (hlen : (len : Int) ≤
        (if w + 4 ≤ r then ((r : Int) - w - 4) else ((size : Int) + r - w - 4))) :
    0 ≤ (if r ≤ c2 then ((c2 : Int) - r) else ((size : Int) + c2 - r)) ∧
    (if r ≤ c2 then ((c2 : Int) - r) else ((size : Int) + c2 - r)) ≤ (size : Int) - 4 := by
  rcases Nat.lt_or_ge c2 size with hlt | hge
  · rw [Nat.mod_eq_of_lt hlt] at hmod
    rcases Nat.lt_or_ge (w + len) size with hd | hd
    · rw [Nat.mod_eq_of_lt hd] at hmod
      constructor <;> split_ifs at h0 h1 hlen ⊢ <;> omega
    · rw [Nat.mod_eq_sub_mod hd, Nat.mod_eq_of_lt (by omega)] at hmod
      constructor <;> split_ifs at h0 h1 hlen ⊢ <;> omega
  · have hc : c2 = size := le_antisymm hwle hge
    rw [hc, Nat.mod_self] at hmod
    rcases Nat.lt_or_ge (w + len) size with hd | hd
    · rw [Nat.mod_eq_of_lt hd] at hmod
      constructor <;> split_ifs at h0 h1 hlen ⊢ <;> omega
    · rw [Nat.mod_eq_sub_mod hd, Nat.mod_eq_of_lt (by omega)] at hmod
      constructor <;> split_ifs at h0 h1 hlen ⊢ <;> omega

/-- Arithmetic core of the read-preservation argument: bounds on the new fill
level after the read index moves forward by `n` modulo `size`. -/
lemma availBounds_after_read (size r w r2 n : Nat)
    (hr : r ≤ size) (hw : w ≤ size) (h4 : 4 ≤ size)
    (hrle : r2 ≤ size)
    (hmod : r2 % size = (r + n) % size)
    (hz : n = 0 → r2 = r)
    (hpos : 1 ≤ n → 1 ≤ r2)
    (h0 : 0 ≤ (if r ≤ w then ((w : Int) - r) else ((size : Int) + w - r)))
    (h1 : (if r ≤ w then ((w : Int) - r) else ((size : Int) + w - r)) ≤ (size : Int) - 4)
    (hn : (n : Int) ≤ (if r ≤ w then ((w : Int) - r) else ((size : Int) + w - r))) :
    0 ≤ (if r2 ≤ w then ((w : Int) - r2) else ((size : Int) + w - r2)) ∧
    (if r2 ≤ w then ((w : Int) - r2) else ((size : Int) + w - r2)) ≤ (size : Int) - 4 := by
  rcases Nat.lt_or_ge r2 size with hlt | hge
  · rw [Nat.mod_eq_of_lt hlt] at hmod
    rcases Nat.lt_or_ge (r + n) size with hd | hd
    · rw [Nat.mod_eq_of_lt hd] at hmod
      constructor <;> split_ifs at h0 h1 hn ⊢ <;> omega
    · rw [Nat.mod_eq_sub_mod hd, Nat.mod_eq_of_lt (by omega)] at hmod
      constructor <;> split_ifs at h0 h1 hn ⊢ <;> omega
  · have hc : r2 = size := le_antisymm hrle hge
    rw [hc, Nat.mod_self] at hmod
    rcases Nat.lt_or_ge (r + n) size with hd | hd
    · rw [Nat.mod_eq_of_lt hd] at hmod
      constructor <;> split_ifs at h0 h1 hn ⊢ <;> omega
    · rw [Nat.mod_eq_sub_mod hd, Nat.mod_eq_of_lt (by omega)] at hmod
      constructor <;> split_ifs at h0 h1 hn ⊢ <;> omega


/-- `ADICircBufWrite` preserves the invariant. -/
lemma inv_write (b : ADI_CIRC_BUF) (hsz : b.nSize ≤ 2147483643) (h4 : 4 ≤ b.nSize)
    (hInv : CircBufInv b) (src : List Nat) : CircBufInv (ADICircBufWrite b src).2 := by
  obtain ⟨size, r, w, data⟩ := b
  obtain ⟨hr, hw, h0, h1⟩ := hInv
  simp only at hr hw h0 h1 hsz h4
  unfold ADICircBufWrite
  split
  case isTrue hg =>
    have hs0 : 0 < size := by omega
    have hspIf := space_eq size r w data hr hw hsz
    have hAIf := avail_eq size r w data hr hw hsz
    rw [hAIf] at h0 h1
    have hsp0 : 0 ≤ ADICircBufGetSpaceAvailable ⟨size, r, w, data⟩ := by
      rw [hspIf]; split_ifs at h0 h1 ⊢ <;> omega
    have hspM : ADICircBufGetSpaceAvailable ⟨size, r, w, data⟩ < (M32 : Int) := by
      have hM : (M32 : Int) = 4294967296 := by norm_num [M32]
      rw [hspIf]; split_ifs <;> omega
    have hcast := toUInt32c_of_nonneg hsp0 hspM
    have hlen : (src.length : Int) ≤
        (if w + 4 ≤ r then ((r : Int) - w - 4) else ((size : Int) + r - w - 4)) := by
      rw [← hspIf, ← hcast]
      exact_mod_cast hg
    have hw2 : (circCopy data size w src).2 = circReadOff size w src.length :=
      circCopy_snd _ _ _ _
    have hwle : (circCopy data size w src).2 ≤ size := by
      rw [hw2]; exact circReadOff_le _ hs0 _ _ hw
    have hmod : (circCopy data size w src).2 % size = (w + src.length) % size := by
      rw [hw2]; exact circReadOff_mod _ hs0 _ _ hw
    have hz : src.length = 0 → (circCopy data size w src).2 = w := by
      intro hl; rw [hw2, hl]; rfl
    have hkey := availBounds_after_write size r w (circCopy data size w src).2 src.length
      hr hw h4 hwle hmod hz h0 h1 hlen
    have hAnew := avail_eq size r (circCopy data size w src).2 (circCopy data size w src).1
      hr hwle hsz
    show CircBufInv ⟨size, r, (circCopy data size w src).2, (circCopy data size w src).1⟩
    refine ⟨hr, hwle, ?_, ?_⟩
    · show (0 : Int) ≤ ADICircBufGetNumBytesAvailable
        ⟨size, r, (circCopy data size w src).2, (circCopy data size w src).1⟩
      rw [hAnew]
      exact hkey.1
    · show ADICircBufGetNumBytesAvailable
        ⟨size, r, (circCopy data size w src).2, (circCopy data size w src).1⟩ ≤ (size : Int) - 4
      rw [hAnew]
      exact hkey.2
  case isFalse => exact ⟨hr, hw, h0, h1⟩

/-- `ADICircBufRead` preserves the invariant. -/
lemma inv_read (b : ADI_CIRC_BUF) (hsz : b.nSize ≤ 2147483643) (h4 : 4 ≤ b.nSize)
    (hInv : CircBufInv b) (n : Nat) : CircBufInv (ADICircBufRead b n).2.2 := by
  obtain ⟨size, r, w, data⟩ := b
  obtain ⟨hr, hw, h0, h1⟩ := hInv
  simp only at hr hw h0 h1 hsz h4
  unfold ADICircBufRead
  split
  case isTrue hg =>
    have hs0 : 0 < size := by omega
    have hAIf := avail_eq size r w data hr hw hsz
    rw [hAIf] at h0 h1
    have hA0 : 0 ≤ ADICircBufGetNumBytesAvailable ⟨size, r, w, data⟩ := by
      rw [hAIf]; split_ifs at h0 h1 ⊢ <;> omega
    have hAM : ADICircBufGetNumBytesAvailable ⟨size, r, w, data⟩ < (M32 : Int) := by
      have hM : (M32 : Int) = 4294967296 := by norm_num [M32]
      rw [hAIf]; split_ifs <;> omega
    have hcast := toUInt32c_of_nonneg hA0 hAM
    have hn : (n : Int) ≤ (if r ≤ w then ((w : Int) - r) else ((size : Int) + w - r)) := by
      rw [← hAIf, ← hcast]
      exact_mod_cast hg
    have hrle : circReadOff size r n ≤ size := circReadOff_le _ hs0 _ _ hr
    have hmod : circReadOff size r n % size = (r + n) % size := circReadOff_mod _ hs0 _ _ hr
    have hz : n = 0 → circReadOff size r n = r := by
      intro hl; rw [hl]; rfl
    have hpos : 1 ≤ n → 1 ≤ circReadOff size r n := fun hl => circReadOff_pos _ _ _ hl
    have hkey := availBounds_after_read size r w (circReadOff size r n) n
      hr hw h4 hrle hmod hz hpos h0 h1 hn
    have hAnew := avail_eq size (circReadOff size r n) w data hrle hw hsz
    show CircBufInv ⟨size, circReadOff size r n, w, data⟩
    refine ⟨hrle, hw, ?_, ?_⟩
    · show (0 : Int) ≤ ADICircBufGetNumBytesAvailable ⟨size, circReadOff size r n, w, data⟩
      rw [hAnew]
      exact hkey.1
    · show ADICircBufGetNumBytesAvailable ⟨size, circReadOff size r n, w, data⟩
          ≤ (size : Int) - 4
      rw [hAnew]
      exact hkey.2
  case isFalse => exact ⟨hr, hw, h0, h1⟩

/-- Every non-skip operation preserves the invariant. -/
lemma inv_step (b : ADI_CIRC_BUF) (op : CircBufOp) (hsz : b.nSize ≤ 2147483643)
    (h4 : 4 ≤ b.nSize) (hInv : CircBufInv b) (hop : op.isSkip = false) :
    CircBufInv (circBufStep b op) := by
  cases op with
  | write src => exact inv_write b hsz h4 hInv src
  | read n => exact inv_read b hsz h4 hInv n
  | query n => exact hInv
  | skip n => simp [CircBufOp.isSkip] at hop

/-- No operation changes the size field. -/
lemma step_nSize (b : ADI_CIRC_BUF) (op : CircBufOp) :
    (circBufStep b op).nSize = b.nSize := by
  cases op <;> simp only [circBufStep, ADICircBufWrite, ADICircBufRead, ADICircBufFlush] <;>
    split <;> rfl

/-- Invariant and size are preserved along any run of non-skip operations. -/
lemma inv_run :
    ∀ (ops : List CircBufOp) (b : ADI_CIRC_BUF), b.nSize ≤ 2147483643 → 4 ≤ b.nSize →
      CircBufInv b → (∀ op ∈ ops, op.isSkip = false) →
      CircBufInv (circBufRun b ops) ∧ (circBufRun b ops).nSize = b.nSize := by
  intro ops
  induction ops with
  | nil => intro b h1 h2 h3 h4; exact ⟨h3, rfl⟩
  | cons op rest ih =>
      intro b h1 h2 h3 h4
      have hsz := step_nSize b op
      have hstep := inv_step b op h1 h2 h3 (h4 op (List.mem_cons_self op rest))
      have hrest := ih (circBufStep b op) (by omega) (by omega) hstep
        (fun o ho => h4 o (List.mem_cons_of_mem op ho))
      exact ⟨hrest.1, by rw [show circBufRun b (op :: rest)
        = circBufRun (circBufStep b op) rest from rfl, hrest.2, hsz]⟩

/-- Two positions that differ by `0 < k < size` have different residues. -/
lemma mod_shift_ne {size off k : Nat} (h1 : 0 < k) (h2 : k < size) :
    (off + k) % size ≠ off % size := by
  intro h
  have hmodeq : Nat.ModEq size off (off + k) := h.symm
  have hdvd : size ∣ off + k - off := (Nat.modEq_iff_dvd' (Nat.le_add_right off k)).mp hmodeq
  rw [Nat.add_sub_cancel_left] at hdvd
  exact absurd (Nat.le_of_dvd h1 hdvd) (by omega)

/-- Positions not written by the copy loop keep their old bytes. -/
lemma circCopy_get_other (size : Nat) (hs : 0 < size) :
    ∀ (src data : List Nat) (off : Nat), off ≤ size →
      ∀ j, (∀ i, i < src.length → j ≠ (off + i) % size) →
        ((circCopy data size off src).1)[j]? = data[j]? := by
  intro src
  induction src with
  | nil => intro data off hoff j hj; rfl
  | cons c rest ih =>
      intro data off hoff j hj
      rw [show circCopy data size off (c :: rest)
            = circCopy (data.set (wrapOff size off) c) size (wrapOff size off + 1) rest from rfl]
      rw [ih _ _ (wrapOff_le hs hoff) j ?avoid]
      · apply List.getElem?_set_ne
        have h0 := hj 0 (by simp)
        rw [show off + 0 = off from by simp] at h0
        rw [wrapOff_mod hoff]
        exact Ne.symm h0
      case avoid =>
        intro i hi
        have hji := hj (i + 1) (by simp; omega)
        rw [wrapOff_mod hoff,
          show off % size + 1 + i = off % size + (1 + i) from by omega, Nat.mod_add_mod,
          show off + (1 + i) = off + (i + 1) from by omega]
        exact hji

/-- Each source byte lands at its wrapped position. -/
lemma circCopy_get_written (size : Nat) (hs : 0 < size) :
    ∀ (src data : List Nat) (off : Nat), off ≤ size → data.length = size →
      src.length ≤ size →
      ∀ i, i < src.length → ((circCopy data size off src).1)[(off + i) % size]? = src[i]? := by
  intro src
  induction src with
  | nil => intro data off _ _ _ i hi; simp at hi
  | cons c rest ih =>
      intro data off hoff hlen hsrc i hi
      have hsrc' : rest.length + 1 ≤ size := by simpa using hsrc
      rw [show circCopy data size off (c :: rest)
            = circCopy (data.set (wrapOff size off) c) size (wrapOff size off + 1) rest from rfl]
      cases i with
      | zero =>
          rw [show (off + 0) % size = off % size from by simp]
          rw [circCopy_get_other size hs rest _ _ (wrapOff_le hs hoff) (off % size) ?avoid]
          · rw [← wrapOff_mod hoff, List.getElem?_set_eq_of_lt]
            · simp
            · have := wrapOff_le hs hoff
              omega
          case avoid =>
            intro i hi2
            rw [wrapOff_mod hoff,
              show off % size + 1 + i = off % size + (1 + i) from by omega, Nat.mod_add_mod]
            exact (@mod_shift_ne size off (1 + i) (by omega) (by omega)).symm
      | succ i =>
          have hi' : i < rest.length := by simpa using hi
          have hpos : (wrapOff size off + 1 + i) % size = (off + (i + 1)) % size := by
            rw [wrapOff_mod hoff,
              show off % size + 1 + i = off % size + (1 + i) from by omega, Nat.mod_add_mod]
            congr 1
            omega
          rw [← hpos]
          rw [ih (data.set (wrapOff size off) c) (wrapOff size off + 1) (wrapOff_le hs hoff)
            (by simpa using hlen) (by omega) i hi']
          simp

/-- C1: starting from an empty buffer, after every sequence of
write/read/peek operations (the skip operation excluded — see the
counterexample), `ADICircBufGetNumBytesAvailable + ADICircBufGetSpaceAvailable`
equals `capacity - 4`. -/
theorem C1_ringbuf_conservation (size : Nat) (backing : List Nat) (ops : List CircBufOp)
    (h4 : 4 ≤ size) (hsz : size ≤ 2147483643)
    (hops : ∀ op ∈ ops, op.isSkip = false) :
    ADICircBufGetNumBytesAvailable (circBufRun (circBufInit size backing) ops)
      + ADICircBufGetSpaceAvailable (circBufRun (circBufInit size backing) ops)
      = (size : Int) - 4 := by
  have hInv0 : CircBufInv (circBufInit size backing) := by
    refine ⟨Nat.zero_le _, Nat.zero_le _, ?_, ?_⟩
    · show (0 : Int) ≤ ADICircBufGetNumBytesAvailable ⟨size, 0, 0, backing⟩
      rw [avail_eq size 0 0 backing (Nat.zero_le _) (Nat.zero_le _) hsz]
      split_ifs <;> omega
    · show ADICircBufGetNumBytesAvailable ⟨size, 0, 0, backing⟩ ≤ (size : Int) - 4
      rw [avail_eq size 0 0 backing (Nat.zero_le _) (Nat.zero_le _) hsz]
      split_ifs <;> omega
  have hrun := inv_run ops (circBufInit size backing) hsz h4 hInv0 hops
  have hsum := sum_eq_of_inv (circBufRun (circBufInit size backing) ops)
    (by rw [hrun.2]; exact hsz) hrun.1
  rw [hrun.2] at hsum
  exact hsum

/-- Witness for C1 at a concrete buffer and operation sequence. -/
theorem C1_ringbuf_conservation_witness :
    ADICircBufGetNumBytesAvailable (circBufRun (circBufInit 8 (List.replicate 8 0))
        [CircBufOp.write [1, 2, 3], CircBufOp.read 2])
      + ADICircBufGetSpaceAvailable (circBufRun (circBufInit 8 (List.replicate 8 0))
        [CircBufOp.write [1, 2, 3], CircBufOp.read 2]) = (8 : Int) - 4 :=
  C1_ringbuf_conservation 8 (List.replicate 8 0) [CircBufOp.write [1, 2, 3], CircBufOp.read 2]
    (by decide) (by decide) (by decide)

set_option maxRecDepth 4000 in
/-- Counterexample to C1 as frozen: with the skip operation included, a
write/read/write/skip/read/write sequence from the empty 8-byte buffer leaves
`available + space = 12 ≠ 8 - 4`. -/
theorem C1_ringbuf_conservation_cex :
    ADICircBufGetNumBytesAvailable (circBufRun (circBufInit 8 (List.replicate 8 0))
        [CircBufOp.write [1, 2, 3, 4], CircBufOp.read 4, CircBufOp.write [5, 6, 7, 8],
         CircBufOp.skip 4, CircBufOp.read 2, CircBufOp.write [9]])
      + ADICircBufGetSpaceAvailable (circBufRun (circBufInit 8 (List.replicate 8 0))
        [CircBufOp.write [1, 2, 3, 4], CircBufOp.read 4, CircBufOp.write [5, 6, 7, 8],
         CircBufOp.skip 4, CircBufOp.read 2, CircBufOp.write [9]])
      ≠ (8 : Int) - 4 := by decide

/-- C2 (amended): provided the reported free space is nonnegative, the write
is all-or-nothing: with too little space the call returns `1` and leaves the
structure untouched; with enough space it returns `0`, leaves the read side
alone, advances the write index by the request length modulo the size, stores
every request byte at its wrapped position and no other byte of the region.
(When the reported free space is negative the `(uint32_t)` cast makes the
guard pass — see the counterexample.) -/
theorem C2_write_all_or_nothing (b : ADI_CIRC_BUF) (src : List Nat)
    (hr : b.nReadIndex ≤ b.nSize) (hw : b.nWriteIndex ≤ b.nSize)
    (h4 : 4 ≤ b.nSize) (hsz : b.nSize ≤ 2147483643)
    (hlen : b.data.length = b.nSize)
    (hnn : 0 ≤ ADICircBufGetSpaceAvailable b) :
    (ADICircBufGetSpaceAvailable b < (src.length : Int) → ADICircBufWrite b src = (1, b)) ∧
    ((src.length : Int) ≤ ADICircBufGetSpaceAvailable b →
      (ADICircBufWrite b src).1 = 0 ∧
      (ADICircBufWrite b src).2.nReadIndex = b.nReadIndex ∧
      (ADICircBufWrite b src).2.nSize = b.nSize ∧
      (ADICircBufWrite b src).2.data.length = b.nSize ∧
      (ADICircBufWrite b src).2.nWriteIndex % b.nSize = (b.nWriteIndex + src.length) % b.nSize ∧
      (∀ i, i < src.length →
        ((ADICircBufWrite b src).2.data)[(b.nWriteIndex + i) % b.nSize]? = src[i]?) ∧
      (∀ j, (∀ i, i < src.length → j ≠ (b.nWriteIndex + i) % b.nSize) →
        ((ADICircBufWrite b src).2.data)[j]? = b.data[j]?)) := by
  obtain ⟨size, r, w, data⟩ := b
  simp only at hr hw h4 hsz hlen hnn
  have hs0 : 0 < size := by omega
  have hspIf := space_eq size r w data hr hw hsz
  have hspM : ADICircBufGetSpaceAvailable ⟨size, r, w, data⟩ < (M32 : Int) := by
    have hM : (M32 : Int) = 4294967296 := by norm_num [M32]
    rw [hspIf]; split_ifs <;> omega
  have hspLtSize : ADICircBufGetSpaceAvailable ⟨size, r, w, data⟩ < (size : Int) := by
    rw [hspIf]; split_ifs <;> omega
  have hcast := toUInt32c_of_nonneg hnn hspM
  constructor
  · intro hless
    have hng : ¬ (src.length ≤ toUInt32c (ADICircBufGetSpaceAvailable ⟨size, r, w, data⟩)) := by
      intro hcon
      have : (src.length : Int)
          ≤ toUInt32c (ADICircBufGetSpaceAvailable ⟨size, r, w, data⟩) := by exact_mod_cast hcon
      omega
    unfold ADICircBufWrite
    rw [if_neg hng]
  · intro hge
    have hgeN : src.length ≤ toUInt32c (ADICircBufGetSpaceAvailable ⟨size, r, w, data⟩) := by
      have : (src.length : Int)
          ≤ (toUInt32c (ADICircBufGetSpaceAvailable ⟨size, r, w, data⟩) : Int) := by omega
      exact_mod_cast this
    have hsrcsz : src.length ≤ size := by omega
    unfold ADICircBufWrite
    rw [if_pos hgeN]
    refine ⟨rfl, rfl, rfl, ?_, ?_, ?_, ?_⟩
    · show (circCopy data size w src).1.length = size
      rw [circCopy_fst_length]
      exact hlen
    · show (circCopy data size w src).2 % size = (w + src.length) % size
      rw [circCopy_snd]
      exact circReadOff_mod _ hs0 _ _ hw
    · intro i hi
      show ((circCopy data size w src).1)[(w + i) % size]? = src[i]?
      exact circCopy_get_written size hs0 src data w hw hlen hsrcsz i hi
    · intro j hj
      show ((circCopy data size w src).1)[j]? = data[j]?
      exact circCopy_get_other size hs0 src data w hw j hj

/-- Witness for C2 at a concrete buffer and request. -/
theorem C2_write_all_or_nothing_witness :
    (0 : Int) ≤ ADICircBufGetSpaceAvailable ⟨8, 0, 0, List.replicate 8 0⟩ ∧
    (ADICircBufWrite ⟨8, 0, 0, List.replicate 8 0⟩ [5, 6]).1 = 0 :=
  ⟨by decide,
   ((C2_write_all_or_nothing ⟨8, 0, 0, List.replicate 8 0⟩ [5, 6] (by decide) (by decide)
      (by decide) (by decide) (by decide) (by decide)).2 (by decide)).1⟩

/-- Counterexample to C2 as frozen: in the state with `nReadIndex = 0`,
`nWriteIndex = 8` of an 8-byte buffer (reachable via the C1 counterexample
trace), the reported free space is `-4 < 1`, yet a 1-byte write succeeds with
result `0` and modifies the structure. -/
theorem C2_write_all_or_nothing_cex :
    ADICircBufGetSpaceAvailable ⟨8, 0, 8, List.replicate 8 0⟩ < (1 : Int) ∧
    (ADICircBufWrite ⟨8, 0, 8, List.replicate 8 0⟩ [9]).1 = 0 ∧
    (ADICircBufWrite ⟨8, 0, 8, List.replicate 8 0⟩ [9]).2 ≠ ⟨8, 0, 8, List.replicate 8 0⟩ := by
  decide


/-! ## Escape-sequence decoder (claim C3)

`CliScanInputChars` keeps a static `escSeqState` variable; the embedding below
is the evolution of that variable for one consumed byte.  The `switch` is
identical in `cli_private.c` (lines 268-365) and `cli_interface.c`
(lines 298-395); state names: `CLI_MET_NO_CHAR = 0`, `CLI_MET_ESC_CHAR = 1`,
`CLI_MET_CTRL_CHAR = 2`, `CLI_MET_FINAL_CHAR = 3`.  Byte codes:
`0x1B = 27`, `'[' = 91`, `'A'..'D' = 65..68`, `'1' = 49`, `'4' = 52`,
`'~' = 126`. -/

/-- One step of the `escSeqState` state machine of `CliScanInputChars`. -/
def escSeqStep (escSeqState : Int) (inputChar : Int) : Int :=
  if escSeqState = 0 then
    (if inputChar = 27 then escSeqState + 1 else escSeqState)
  else if escSeqState = 1 then
    (if inputChar = 91 then escSeqState + 1 else 0)
  else if escSeqState = 2 then
    (if inputChar = 65 then 0
     else if inputChar = 66 then 0
     else if inputChar = 67 then 0
     else if inputChar = 68 then 0
     else if inputChar = 49 then escSeqState + 1
     else if inputChar = 52 then escSeqState + 1
     else escSeqState + 1)
  else if escSeqState = 3 then
    (if inputChar = 126 then 0 else escSeqState)
  else 0

/-- C3 (amended): in the `CLI_MET_FINAL_CHAR` state only the byte `'~'`
returns the machine to `Idle`; every other byte leaves it in
`CLI_MET_FINAL_CHAR` (there is no defensive reset). -/
theorem C3_escape_final_state (inputChar : Int) :
    escSeqStep 3 inputChar = (if inputChar = 126 then 0 else 3) := by
  unfold escSeqStep
  norm_num

/-- Counterexample to C3 as frozen: consuming the byte `'x' = 120` in the
`AwaitingFinal` state does not transition to `Idle`. -/
theorem C3_escape_final_state_cex : escSeqStep 3 120 ≠ 0 := by decide

/-! ## Output double buffer and transmit path (claims C4 and C5)

Embeds `adi_cli_FlushMessages` and `adi_cli_TxCallback` from
`src/services/cli/source/adi_cli.c`.  The state gathers the fields the two
functions touch: `bufferInfo.bytesStored`, `isTxComplete`, the static `bufId`
of `adi_cli_FlushMessages`, and which of `cliBuffer0`/`cliBuffer1` the
`pBufferToWrite` pointer designates (`activeBuffer`, `0` or `1`).  Calls of
the injected `pfTransmitAsync` and of the completion callback are recorded in
`events`; the injected function's return value is the `txStatus` argument.
The null-handle guards are not modelled: all calls are on a valid handle. -/

/-- `ADI_CLI_STATUS` codes (adi_cli_status.h), in declaration order. -/
def ADI_CLI_STATUS_SUCCESS : Nat := 0

/-- `ADI_CLI_STATUS_NULL_PTR` -/
def ADI_CLI_STATUS_NULL_PTR : Nat := 1

/-- `ADI_CLI_STATUS_INSUFFICIENT_STATE_MEMORY` -/
def ADI_CLI_STATUS_INSUFFICIENT_STATE_MEMORY : Nat := 2

/-- `ADI_CLI_STATUS_INSUFFICIENT_TEMP_MEMORY` -/
def ADI_CLI_STATUS_INSUFFICIENT_TEMP_MEMORY : Nat := 3

/-- `ADI_CLI_STATUS_COMM_ERROR` -/
def ADI_CLI_STATUS_COMM_ERROR : Nat := 4

/-- `ADI_CLI_STATUS_BUFFER_FULL` -/
def ADI_CLI_STATUS_BUFFER_FULL : Nat := 5

/-- `ADI_CLI_STATUS_INVALID_COMMAND` -/
def ADI_CLI_STATUS_INVALID_COMMAND : Nat := 6

/-- `ADI_CLI_STATUS_TRANSMISSION_IN_PROGRESS` -/
def ADI_CLI_STATUS_TRANSMISSION_IN_PROGRESS : Nat := 7

/-- An observable event of the transmit path: a `pfTransmitAsync` request
(with the buffer handed over and its length) or a completion callback. -/
inductive TxEvent where
  | tx (bufferId : Nat) (len : Nat)
  | cb
  deriving DecidableEq

/-- Whether an event is a transmit request. -/
def TxEvent.isTx : TxEvent → Bool
  | .tx _ _ => true
  | .cb => false

/-- The transmit-path state of `ADI_CLI_INFO`. -/
structure CliTxState where
  bytesStored : Nat
  isTxComplete : Bool
  bufId : Nat
  activeBuffer : Nat
  events : List TxEvent
  deriving DecidableEq

/-- The state update of the send branch of `adi_cli_FlushMessages`:
`isTxComplete = false`, the transmit request for the currently filling buffer,
the `pBufferToWrite` switch chosen from `bufId`, the `bufId` toggle, and
`bytesStored = 0`. -/
def flushSend (s : CliTxState) : CliTxState :=
  { s with isTxComplete := false,
           events := s.events ++ [TxEvent.tx s.activeBuffer s.bytesStored],
           activeBuffer := if s.bufId = 0 then 1 else 0,
           bufId := s.bufId ^^^ 1,
           bytesStored := 0 }

/-- `adi_cli_FlushMessages`.  The status starts as `SUCCESS`, becomes the
transmit function's return value in the send branch, then the final
`if (isTxComplete == false || bytesStored > 0)` check (evaluated on the
updated fields) overwrites it with `TRANSMISSION_IN_PROGRESS`. -/
def adi_cli_FlushMessages (txStatus : Nat) (s : CliTxState) : Nat × CliTxState :=
  if 0 < s.bytesStored ∧ s.isTxComplete = true then
    (if (flushSend s).isTxComplete = false ∨ 0 < (flushSend s).bytesStored
      then ADI_CLI_STATUS_TRANSMISSION_IN_PROGRESS else txStatus,
     flushSend s)
  else
    (if s.isTxComplete = false ∨ 0 < s.bytesStored
      then ADI_CLI_STATUS_TRANSMISSION_IN_PROGRESS else ADI_CLI_STATUS_SUCCESS,
     s)

/-- `adi_cli_TxCallback`: sets `isTxComplete = 1`. -/
def adi_cli_TxCallback (s : CliTxState) : Nat × CliTxState :=
  (ADI_CLI_STATUS_SUCCESS, { s with isTxComplete := true, events := s.events ++ [TxEvent.cb] })



/-- The full three-way contract of one flush call, shared by the C4 and C5
developments. -/
lemma flushContract (txStatus : Nat) (s : CliTxState) :
    (0 < s.bytesStored → s.isTxComplete = true →
      (adi_cli_FlushMessages txStatus s).2.events
          = s.events ++ [TxEvent.tx s.activeBuffer s.bytesStored] ∧
      (adi_cli_FlushMessages txStatus s).2.isTxComplete = false ∧
      (adi_cli_FlushMessages txStatus s).2.activeBuffer = (if s.bufId = 0 then 1 else 0) ∧
      (adi_cli_FlushMessages txStatus s).2.bufId = s.bufId ^^^ 1 ∧
      (adi_cli_FlushMessages txStatus s).2.bytesStored = 0 ∧
      (adi_cli_FlushMessages txStatus s).1 = ADI_CLI_STATUS_TRANSMISSION_IN_PROGRESS) ∧
    (s.bytesStored = 0 → s.isTxComplete = true →
      (adi_cli_FlushMessages txStatus s).1 = ADI_CLI_STATUS_SUCCESS ∧
      (adi_cli_FlushMessages txStatus s).2 = s) ∧
    (s.isTxComplete = false →
      (adi_cli_FlushMessages txStatus s).1 = ADI_CLI_STATUS_TRANSMISSION_IN_PROGRESS ∧
      (adi_cli_FlushMessages txStatus s).2 = s) := by
  refine ⟨?_, ?_, ?_⟩
  · intro hb ht
    unfold adi_cli_FlushMessages
    rw [if_pos ⟨hb, ht⟩]
    simp [flushSend]
  · intro hb ht
    unfold adi_cli_FlushMessages
    rw [if_neg (by simp [hb])]
    simp [hb, ht]
  · intro ht
    unfold adi_cli_FlushMessages
    rw [if_neg (by simp [ht])]
    simp [ht]

/-- C4 (amended): the three-way flush contract.  With pending bytes and no
transmit in flight, `adi_cli_FlushMessages` hands the filling buffer and its
length to the injected transmit function exactly once, marks a transmit in
flight, selects the other ping-pong buffer, toggles the static `bufId`,
resets `bytesStored` — and returns `TRANSMISSION_IN_PROGRESS`, not success,
because the final status check sees the in-flight flag it just cleared.
With no pending bytes and no transmit in flight it returns success without
transmitting; with a transmit in flight it returns `TRANSMISSION_IN_PROGRESS`
and does nothing. -/
theorem C4_flush_contract (txStatus : Nat) (s : CliTxState) :
    (0 < s.bytesStored → s.isTxComplete = true →
      (adi_cli_FlushMessages txStatus s).2.events
          = s.events ++ [TxEvent.tx s.activeBuffer s.bytesStored] ∧
      (adi_cli_FlushMessages txStatus s).2.isTxComplete = false ∧
      (adi_cli_FlushMessages txStatus s).2.activeBuffer = (if s.bufId = 0 then 1 else 0) ∧
      (adi_cli_FlushMessages txStatus s).2.bufId = s.bufId ^^^ 1 ∧
      (adi_cli_FlushMessages txStatus s).2.bytesStored = 0 ∧
      (adi_cli_FlushMessages txStatus s).1 = ADI_CLI_STATUS_TRANSMISSION_IN_PROGRESS) ∧
    (s.bytesStored = 0 → s.isTxComplete = true →
      (adi_cli_FlushMessages txStatus s).1 = ADI_CLI_STATUS_SUCCESS ∧
      (adi_cli_FlushMessages txStatus s).2 = s) ∧
    (s.isTxComplete = false →
      (adi_cli_FlushMessages txStatus s).1 = ADI_CLI_STATUS_TRANSMISSION_IN_PROGRESS ∧
      (adi_cli_FlushMessages txStatus s).2 = s) :=
  flushContract txStatus s

/-- Witness for C4: flushing five pending bytes with no transmit in flight
records exactly one transmit request. -/
theorem C4_flush_contract_witness :
    (adi_cli_FlushMessages ADI_CLI_STATUS_SUCCESS ⟨5, true, 0, 0, []⟩).2.events
      = [TxEvent.tx 0 5] :=
  by
    have h := (C4_flush_contract ADI_CLI_STATUS_SUCCESS ⟨5, true, 0, 0, []⟩).1
      (by decide) (by decide)
    exact h.1

/-- Counterexample to C4 as frozen: a flush of five pending bytes with no
transmit in flight does hand one request to the transmit function, yet its
return status is `TRANSMISSION_IN_PROGRESS`, not the success status the claim
requires. -/
theorem C4_flush_contract_cex :
    (adi_cli_FlushMessages ADI_CLI_STATUS_SUCCESS ⟨5, true, 0, 0, []⟩).2.events.length = 1 ∧
    (adi_cli_FlushMessages ADI_CLI_STATUS_SUCCESS ⟨5, true, 0, 0, []⟩).1
      ≠ ADI_CLI_STATUS_SUCCESS := by decide

/-! ## C5: at most one outstanding transmit -/

/-- A call of the transmit path: a flush (with the injected transmit's return
value) or the transmit-complete callback. -/
inductive TxOp where
  | flush (txStatus : Nat)
  | callback
  deriving DecidableEq

/-- State effect of one call. -/
def txStep (s : CliTxState) (op : TxOp) : CliTxState :=
  match op with
  | .flush t => (adi_cli_FlushMessages t s).2
  | .callback => (adi_cli_TxCallback s).2

/-- Run a sequence of calls. -/
def txRun (s : CliTxState) (ops : List TxOp) : CliTxState :=
  ops.foldl txStep s

/-- No two adjacent transmit requests in the event log: every second request
is separated from the first by a completion callback. -/
def noTxTx : List TxEvent → Bool
  | [] => true
  | [_] => true
  | a :: b :: rest => (!(a.isTx && b.isTx)) && noTxTx (b :: rest)

/-- Whether the last event allows a fresh transmit request. -/
def lastNotTx (evs : List TxEvent) : Bool :=
  match evs.getLast? with
  | none => true
  | some e => !e.isTx

/-- The transmit-path invariant: well-separated requests, and a raised
`isTxComplete` flag only ever follows a callback (or the initial state). -/
def TxInv (s : CliTxState) : Prop :=
  noTxTx s.events = true ∧ (s.isTxComplete = true → lastNotTx s.events = true)

lemma noTxTx_append_one (evs : List TxEvent) (e : TxEvent) :
    noTxTx (evs ++ [e])
      = (noTxTx evs && (lastNotTx evs || !e.isTx)) := by
  induction evs with
  | nil => simp [noTxTx, lastNotTx]
  | cons a rest ih =>
      cases rest with
      | nil => cases e <;> cases a <;> simp [noTxTx, lastNotTx, TxEvent.isTx]
      | cons b rest2 =>
          simp only [List.cons_append]
          rw [show noTxTx (a :: b :: (rest2 ++ [e]))
                = ((!(a.isTx && b.isTx)) && noTxTx (b :: (rest2 ++ [e]))) from rfl]
          rw [show noTxTx (a :: b :: rest2)
                = ((!(a.isTx && b.isTx)) && noTxTx (b :: rest2)) from rfl]
          have ih2 := ih
          simp only [List.cons_append] at ih2
          rw [ih2]
          rw [show lastNotTx (a :: b :: rest2) = lastNotTx (b :: rest2) from by
            unfold lastNotTx; rw [List.getLast?_cons_cons]]
          rw [Bool.and_assoc]

/-- One call preserves the invariant. -/
lemma txInv_step (s : CliTxState) (op : TxOp) (h : TxInv s) : TxInv (txStep s op) := by
  obtain ⟨h1, h2⟩ := h
  cases op with
  | flush t =>
      show TxInv (adi_cli_FlushMessages t s).2
      unfold adi_cli_FlushMessages
      split
      case isTrue hc =>
        have hlast := h2 hc.2
        constructor
        · show noTxTx (flushSend s).events = true
          show noTxTx (s.events ++ [TxEvent.tx s.activeBuffer s.bytesStored]) = true
          rw [noTxTx_append_one, h1, hlast]
          simp
        · intro hfalse
          simp [flushSend] at hfalse
      case isFalse => exact ⟨h1, h2⟩
  | callback =>
      constructor
      · show noTxTx (s.events ++ [TxEvent.cb]) = true
        rw [noTxTx_append_one, h1]
        simp [TxEvent.isTx]
      · intro _
        show lastNotTx (s.events ++ [TxEvent.cb]) = true
        unfold lastNotTx
        rw [List.getLast?_concat]
        simp [TxEvent.isTx]

lemma txInv_run (ops : List TxOp) :
    ∀ (s : CliTxState), TxInv s → TxInv (txRun s ops) := by
  induction ops with
  | nil => intro s h; exact h
  | cons op rest ih =>
      intro s h
      exact ih (txStep s op) (txInv_step s op h)

/-- C5: from any state satisfying the transmit-path invariant (as the created
session does), every sequence of flush/callback calls keeps the event log free
of two transmit requests without an intervening completion callback; and from
a state with pending bytes and no transmit in flight, two consecutive flushes
issue exactly one transmit request and the second flush returns
`TRANSMISSION_IN_PROGRESS`. -/
theorem C5_single_outstanding (s : CliTxState) (ops : List TxOp) (t1 t2 : Nat)
    (hInv : TxInv s) :
    noTxTx (txRun s ops).events = true ∧
    (0 < s.bytesStored → s.isTxComplete = true →
      ((adi_cli_FlushMessages t2 (adi_cli_FlushMessages t1 s).2).2.events.length
          = s.events.length + 1) ∧
      (adi_cli_FlushMessages t2 (adi_cli_FlushMessages t1 s).2).1
          = ADI_CLI_STATUS_TRANSMISSION_IN_PROGRESS) := by
  constructor
  · exact (txInv_run ops s hInv).1
  · intro hb ht
    have h1 := (flushContract t1 s).1 hb ht
    have h2 := (flushContract t2 (adi_cli_FlushMessages t1 s).2).2.2 h1.2.1
    constructor
    · rw [h2.2, h1.1]
      simp
    · exact h2.1

/-- Witness for C5 at a concrete state and call sequence. -/
theorem C5_single_outstanding_witness :
    noTxTx (txRun ⟨5, true, 0, 0, []⟩
        [TxOp.flush 0, TxOp.flush 0, TxOp.callback, TxOp.flush 0]).events = true :=
  (C5_single_outstanding ⟨5, true, 0, 0, []⟩
      [TxOp.flush 0, TxOp.flush 0, TxOp.callback, TxOp.flush 0] 0 0
      ⟨rfl, fun _ => rfl⟩).1




/-! ## Session creation (claim C10)

Embeds the control flow and observable effects of `adi_cli_Create`
(`src/services/cli/source/adi_cli.c`, lines 57-99).  Pointer arguments are
modelled by whether they are NULL; memory writes by effect flags.
`ADI_CLI_TEMP_MEM_NUM_BYTES = 0x2000 = 8192` (adi_cli_memory.h);
`sizeof(ADI_CLI_INFO)` is target-dependent and kept as the `reqSize`
parameter. -/

/-- Observable outcome of `adi_cli_Create`:  `handleWritten` is what was
stored through `phCli` (`none` = never written, `some false` = NULL,
`some true` = the address of the state region);  `stateInitialised` records
whether the state region was zeroed and initialised (`memset`,
`InitCircBuff`, `IntialiseStateData`);  `tempAssigned` whether the scratch
region was stored and carved up (`AllocateTempMem`). -/
structure CreateResult where
  status : Nat
  handleWritten : Option Bool
  stateInitialised : Bool
  tempAssigned : Bool
  deriving DecidableEq

/-- `adi_cli_Create`.  Note the order of effects: the NULL-pointer check,
then `*phCli = NULL`, then the state-size check, then `*phCli = pInfo`
followed by zeroing/initialising the state, and only then the temp-size
check.  `pTempMemory` is never inspected. -/
def adi_cli_Create (phCliNull pStateMemoryNull pTempMemoryNull : Bool)
    (stateMemorySize tempMemorySize reqSize : Nat) : CreateResult :=
  if phCliNull || pStateMemoryNull then
    ⟨ADI_CLI_STATUS_NULL_PTR, none, false, false⟩
  else if stateMemorySize < reqSize then
    ⟨ADI_CLI_STATUS_INSUFFICIENT_STATE_MEMORY, some false, false, false⟩
  else if tempMemorySize < 8192 then
    ⟨ADI_CLI_STATUS_INSUFFICIENT_TEMP_MEMORY, some true, true, false⟩
  else
    ⟨ADI_CLI_STATUS_SUCCESS, some true, true, true⟩

/-- C10: on the insufficient-scratch-memory path with valid pointers and
enough state memory, `adi_cli_Create` returns
`ADI_CLI_STATUS_INSUFFICIENT_TEMP_MEMORY` but has already initialised the
caller's state region and stored the non-NULL state address into `*phCli`;
the outcome is the same whether or not `pTempMemory` is NULL, since it is
never checked. -/
theorem C10_create_temp_failure (pTempMemoryNull : Bool)
    (stateMemorySize tempMemorySize reqSize : Nat)
    (hstate : reqSize ≤ stateMemorySize) (htemp : tempMemorySize < 8192) :
    adi_cli_Create false false pTempMemoryNull stateMemorySize tempMemorySize reqSize
      = ⟨ADI_CLI_STATUS_INSUFFICIENT_TEMP_MEMORY, some true, true, false⟩ := by
  unfold adi_cli_Create
  rw [if_neg (by simp), if_neg (by omega), if_pos htemp]

/-- Witness for C10 at concrete sizes (with a NULL scratch pointer). -/
theorem C10_create_temp_failure_witness :
    adi_cli_Create false false true 4096 100 1024
      = ⟨ADI_CLI_STATUS_INSUFFICIENT_TEMP_MEMORY, some true, true, false⟩ :=
  C10_create_temp_failure true 4096 100 1024 (by decide) (by decide)




/-! ## C string utilities (src/services/cli/source/cli_utils.c and ctype)

C strings are modelled as NUL-free `List Nat` of bytes; the terminating
`'\0'` is the end of the list.  Application-configured limits come from
`app_cfg.h`, which is supplied by the embedding application and absent from
src/. -/

/-- Modelled from the spec: `APP_CFG_CLI_MAX_CMD_LENGTH`, the
application-configured maximum command length (app_cfg.h is not part of the
repository).  Fixed at 64 bytes; every theorem below stays well inside it. -/
def APP_CFG_CLI_MAX_CMD_LENGTH : Nat := 64

/-- Modelled from the spec: `APP_CFG_CLI_MAX_PARAM_LENGTH`, the
application-configured maximum parameter length (app_cfg.h is not part of the
repository).  Fixed at 32 bytes. -/
def APP_CFG_CLI_MAX_PARAM_LENGTH : Nat := 32

/-- ASCII `tolower`. -/
def tolowerB (c : Nat) : Nat := if 65 ≤ c ∧ c ≤ 90 then c + 32 else c

/-- ASCII `isspace`: space and the five C whitespace controls `\t \n \v \f \r`. -/
def isspaceB (c : Nat) : Bool := c = 32 || (9 ≤ c && c ≤ 13)

/-- `strlen`: bytes before the first NUL. -/
def strlen : List Nat → Nat
  | [] => 0
  | c :: rest => if c = 0 then 0 else strlen rest + 1

/-- `strncmp` on byte lists; the end of a list is the `'\0'` terminator.
Only the zero/nonzero distinction of the result is relied upon. -/
def strncmp : List Nat → List Nat → Nat → Int
  | _, _, 0 => 0
  | [], [], _ + 1 => 0
  | [], b :: _, _ + 1 => if b = 0 then 0 else 0 - (b : Int)
  | a :: _, [], _ + 1 => if a = 0 then 0 else (a : Int)
  | a :: as, b :: bs, n + 1 =>
      if a ≠ b then (a : Int) - (b : Int)
      else if a = 0 then 0 else strncmp as bs n

/-- `ConvertToLower`: lowers characters while they are nonzero and the index
is below `maxSize`, then NUL-terminates. -/
def ConvertToLower : Nat → List Nat → List Nat
  | _, [] => []
  | 0, _ :: _ => []
  | m + 1, c :: rest => if c = 0 then [] else tolowerB c :: ConvertToLower m rest

/-- `StrnLen`: length up to the first NUL, capped at `maxLen + 1` (the loop
guard is `len <= maxLen`). -/
def strnLenAux : List Nat → Nat → Nat → Nat
  | [], len, _ => len
  | c :: rest, len, maxLen =>
      if len ≤ maxLen ∧ c ≠ 0 then strnLenAux rest (len + 1) maxLen else len

/-- `StrnLen` entry point. -/
def StrnLen (s : List Nat) (maxLen : Nat) : Nat := strnLenAux s 0 maxLen

/-- `StrCopy`: copies at most `maxLength` bytes, stopping after a NUL.  On a
NUL-free source this is `take`. -/
def StrCopy (src : List Nat) (maxLength : Nat) : List Nat := src.take maxLength

lemma tolowerB_ne_zero {b : Nat} (h : b ≠ 0) : tolowerB b ≠ 0 := by
  unfold tolowerB
  split <;> omega

lemma strlen_eq_length : ∀ (s : List Nat), (∀ b ∈ s, b ≠ 0) → strlen s = s.length := by
  intro s
  induction s with
  | nil => intro h; rfl
  | cons c rest ih =>
      intro h
      unfold strlen
      rw [if_neg (h c (by simp))]
      rw [ih (fun b hb => h b (by simp [hb]))]
      rfl

lemma convertToLower_eq : ∀ (s : List Nat) (maxSize : Nat), (∀ b ∈ s, b ≠ 0) →
    s.length ≤ maxSize → ConvertToLower maxSize s = s.map tolowerB := by
  intro s
  induction s with
  | nil => intro m _ _; cases m <;> rfl
  | cons c rest ih =>
      intro m h hl
      cases m with
      | zero => simp at hl
      | succ m2 =>
          unfold ConvertToLower
          rw [if_neg (h c (by simp))]
          rw [ih m2 (fun b hb => h b (by simp [hb])) (by simpa using hl)]
          rfl

lemma map_tolowerB_nulfree {s : List Nat} (h : ∀ b ∈ s, b ≠ 0) :
    ∀ b ∈ s.map tolowerB, b ≠ 0 := by
  intro b hb
  obtain ⟨a, ha, rfl⟩ := List.mem_map.mp hb
  exact tolowerB_ne_zero (h a ha)

/-- For NUL-free strings both no longer than `n`, `strncmp` vanishes exactly
on equal strings. -/
lemma strncmp_eq_zero_iff : ∀ (n : Nat) (a b : List Nat), (∀ x ∈ a, x ≠ 0) →
    (∀ x ∈ b, x ≠ 0) → a.length ≤ n → b.length ≤ n → (strncmp a b n = 0 ↔ a = b) := by
  intro n
  induction n with
  | zero =>
      intro a b _ _ ha hb
      have ha0 : a = [] := List.length_eq_zero.mp (by omega)
      have hb0 : b = [] := List.length_eq_zero.mp (by omega)
      subst ha0
      subst hb0
      simp [strncmp]
  | succ n ih =>
      intro a b h0a h0b ha hb
      cases a with
      | nil =>
          cases b with
          | nil => simp [strncmp]
          | cons y ys =>
              have hy := h0b y (by simp)
              rw [show strncmp [] (y :: ys) (n + 1)
                    = (if y = 0 then 0 else 0 - (y : Int)) from rfl]
              rw [if_neg hy]
              constructor
              · intro hz; exfalso; omega
              · intro hz; exact absurd hz (by simp)
      | cons x xs =>
          cases b with
          | nil =>
              have hx := h0a x (by simp)
              rw [show strncmp (x :: xs) [] (n + 1) = (if x = 0 then 0 else (x : Int)) from rfl]
              rw [if_neg hx]
              constructor
              · intro hz; exfalso; omega
              · intro hz; exact absurd hz (by simp)
          | cons y ys =>
              have hx := h0a x (by simp)
              rw [show strncmp (x :: xs) (y :: ys) (n + 1)
                    = (if x ≠ y then (x : Int) - (y : Int)
                       else if x = 0 then 0 else strncmp xs ys n) from rfl]
              by_cases hxy : x = y
              · rw [if_neg (by simpa using hxy), if_neg hx]
                rw [ih xs ys (fun z hz => h0a z (by simp [hz]))
                  (fun z hz => h0b z (by simp [hz])) (by simp at ha; omega)
                  (by simp at hb; omega)]
                simp [hxy]
              · rw [if_pos hxy]
                constructor
                · intro hz; exfalso; omega
                · intro hz
                  exact absurd (by injection hz) hxy

/-! ## Command dispatch table (claim C6, src/services/cli/source/cli_dispatch.c)

One record of the dispatch table.  `DispatchGetCommandDetails` reads only
`pName`; the other fields a record carries (`pParamList`, the handler, the
`hide` flag) are kept for the parse/dispatch claims.  The handler function
pointer is abstracted by the value it would return. -/
structure Command where
  pName : List Nat
  pParamList : List Nat
  pfFuncResult : Int
  hide : Bool
  deriving DecidableEq

/-- The record-matching loop of `DispatchGetCommandDetails`: skip on unequal
`strlen`, otherwise lower the record name and test
`strncmp(pCmdLower, pDispatchCmd, strlen(pCmdLower)) == 0`; first match wins. -/
def dispatchFindRecord (pCmdLower : List Nat) : List Command → Option Command
  | [] => none
  | r :: rest =>
      if strlen pCmdLower ≠ strlen r.pName then dispatchFindRecord pCmdLower rest
      else if strncmp pCmdLower (ConvertToLower APP_CFG_CLI_MAX_CMD_LENGTH r.pName)
          (strlen pCmdLower) = 0 then some r
      else dispatchFindRecord pCmdLower rest

/-- `DispatchGetCommandDetails`: lowers the token into `pCmdLower`, then
scans the table. -/
def DispatchGetCommandDetails (table : List Command) (pCommandToken : List Nat) :
    Option Command :=
  dispatchFindRecord (ConvertToLower APP_CFG_CLI_MAX_CMD_LENGTH pCommandToken) table

/-- C6: for NUL-free names and tokens within the configured length bound,
`DispatchGetCommandDetails` returns exactly the first table record whose name
has the same length as the token and is equal to it up to ASCII case; in
particular a token that differs from an entry only in case matches, and a
token that is a strict prefix of an entry name never does (the lengths
differ). -/
theorem C6_dispatch_match (table : List Command) (tok : List Nat)
    (htok0 : ∀ b ∈ tok, b ≠ 0) (htokLen : tok.length ≤ 64)
    (htbl : ∀ r ∈ table, (∀ b ∈ r.pName, b ≠ 0) ∧ r.pName.length ≤ 64) :
    DispatchGetCommandDetails table tok
      = table.find? (fun r =>
          r.pName.length == tok.length && r.pName.map tolowerB == tok.map tolowerB) := by
  unfold DispatchGetCommandDetails
  rw [convertToLower_eq tok APP_CFG_CLI_MAX_CMD_LENGTH htok0
    (by unfold APP_CFG_CLI_MAX_CMD_LENGTH; omega)]
  induction table with
  | nil => rfl
  | cons r rest ih =>
      have hr := htbl r (by simp)
      have hlow := convertToLower_eq r.pName APP_CFG_CLI_MAX_CMD_LENGTH hr.1
        (by unfold APP_CFG_CLI_MAX_CMD_LENGTH; omega)
      rw [show dispatchFindRecord (tok.map tolowerB) (r :: rest)
            = (if strlen (tok.map tolowerB) ≠ strlen r.pName
                then dispatchFindRecord (tok.map tolowerB) rest
               else if strncmp (tok.map tolowerB)
                   (ConvertToLower APP_CFG_CLI_MAX_CMD_LENGTH r.pName)
                   (strlen (tok.map tolowerB)) = 0 then some r
               else dispatchFindRecord (tok.map tolowerB) rest) from rfl]
      rw [List.find?_cons]
      rw [strlen_eq_length _ (map_tolowerB_nulfree htok0), List.length_map]
      rw [strlen_eq_length _ hr.1]
      rw [hlow]
      by_cases hL : r.pName.length = tok.length
      · rw [if_neg (by omega)]
        have hiff := strncmp_eq_zero_iff tok.length (tok.map tolowerB) (r.pName.map tolowerB)
          (map_tolowerB_nulfree htok0) (map_tolowerB_nulfree hr.1)
          (by simp) (by simp [hL])
        by_cases hEq : r.pName.map tolowerB = tok.map tolowerB
        · rw [if_pos (hiff.mpr hEq.symm)]
          rw [show (r.pName.length == tok.length && r.pName.map tolowerB == tok.map tolowerB)
                = true from by
            rw [Bool.and_eq_true, beq_iff_eq, beq_iff_eq]
            exact ⟨hL, hEq⟩]
        · rw [if_neg (fun hc => hEq (hiff.mp hc).symm)]
          rw [show (r.pName.length == tok.length && r.pName.map tolowerB == tok.map tolowerB)
                = false from by
            rw [Bool.and_eq_false_iff]
            right
            simpa using hEq]
          exact ih (fun q hq => htbl q (by simp [hq]))
      · rw [if_pos (by omega)]
        rw [show (r.pName.length == tok.length && r.pName.map tolowerB == tok.map tolowerB)
              = false from by
          rw [Bool.and_eq_false_iff]
          left
          simpa using hL]
        exact ih (fun q hq => htbl q (by simp [hq]))

/-- Witness for C6: the token `"HeLp"` matches the record named `"help"`,
while the strict prefix `"hel"` matches nothing. -/
theorem C6_dispatch_match_witness :
    DispatchGetCommandDetails [⟨[104, 101, 108, 112], [], 0, false⟩] [72, 101, 76, 112]
        = some ⟨[104, 101, 108, 112], [], 0, false⟩ ∧
    DispatchGetCommandDetails [⟨[104, 101, 108, 112], [], 0, false⟩] [104, 101, 108]
        = none := by
  constructor
  · rw [C6_dispatch_match [⟨[104, 101, 108, 112], [], 0, false⟩] [72, 101, 76, 112]
      (by decide) (by decide) (by decide)]
    decide
  · rw [C6_dispatch_match [⟨[104, 101, 108, 112], [], 0, false⟩] [104, 101, 108]
      (by decide) (by decide) (by decide)]
    decide


/-! ## Command history ring (claim C8, src/services/cli/source/cli_history.c)

Embeds `TrimWhiteSpaces` (cli_utils.c), `HistoryCheckForDuplicate`,
`HistoryAppend`, `HistoryInit` and `HistoryScrollUp`.  Entry buffers are
modelled as NUL-free byte lists; the stale bytes the C leaves behind a copied
terminator are unobservable through the NUL-respecting `strncmp`/read paths
and are not modelled.  `curIndex` is zero initially thanks to the create-time
`memset`. -/

/-- `HISTORY_DEPTH` (cli_history.h). -/
def HISTORY_DEPTH : Nat := 16

/-- `HISTORY_ENTRY_LENGTH = APP_CFG_CLI_MAX_CMD_LENGTH + APP_CFG_CLI_MAX_PARAM_LENGTH`. -/
def HISTORY_ENTRY_LENGTH : Nat := APP_CFG_CLI_MAX_CMD_LENGTH + APP_CFG_CLI_MAX_PARAM_LENGTH

/-- The `CLI_HISTORY` structure. -/
structure CLI_HISTORY where
  list : List (List Nat)
  headIndex : Nat
  tailIndex : Nat
  curIndex : Nat
  deriving DecidableEq

/-- `TrimWhiteSpaces`: drop leading whitespace, measure with `StrnLen`,
walk `pEnd` back over trailing whitespace (never past the first byte), and
copy what remains. -/
def TrimWhiteSpaces (pCommand : List Nat) : List Nat :=
  let s1 := pCommand.dropWhile (fun c => c != 0 && isspaceB c)
  let commandLength := StrnLen s1 APP_CFG_CLI_MAX_CMD_LENGTH
  let t := s1.take commandLength
  let trimLength := if t = [] then 0
    else max 1 (t.length - (t.reverse.takeWhile (fun c => isspaceB c)).length)
  s1.take trimLength

/-- The most-recent-entry index of `HistoryCheckForDuplicate`:
`headIndex - 1` in `uint32_t`, clamped into the ring. -/
def historyRecentIndex (h : CLI_HISTORY) : Nat :=
  if (h.headIndex + M32 - 1) % M32 < HISTORY_DEPTH then (h.headIndex + M32 - 1) % M32
  else HISTORY_DEPTH - 1

/-- `HistoryCheckForDuplicate`: on a nonempty ring, compare the candidate
with the most recent entry over `APP_CFG_CLI_MAX_CMD_LENGTH` bytes. -/
def HistoryCheckForDuplicate (h : CLI_HISTORY) (pCommand : List Nat) : Bool :=
  if h.headIndex ≠ h.tailIndex then
    strncmp pCommand (h.list.getD (historyRecentIndex h) []) APP_CFG_CLI_MAX_CMD_LENGTH == 0
  else false

/-- `HistoryAppend`: trim; drop empty results; on a duplicate of the most
recent entry only reset `curIndex`; otherwise store at `headIndex`, advance
`headIndex` (mod `HISTORY_DEPTH`), let `curIndex` follow, and advance
`tailIndex` when overtaken. -/
def HistoryAppend (h : CLI_HISTORY) (pCommand : List Nat) : CLI_HISTORY :=
  if (TrimWhiteSpaces pCommand).length ≠ 0 then
    if HistoryCheckForDuplicate h (TrimWhiteSpaces pCommand) then
      { h with curIndex := h.headIndex }
    else
      { list := h.list.set h.headIndex (StrCopy (TrimWhiteSpaces pCommand) HISTORY_ENTRY_LENGTH),
        headIndex := if h.headIndex + 1 < HISTORY_DEPTH then h.headIndex + 1 else 0,
        tailIndex :=
          if (if h.headIndex + 1 < HISTORY_DEPTH then h.headIndex + 1 else 0) = h.tailIndex
          then (if h.tailIndex + 1 < HISTORY_DEPTH then h.tailIndex + 1 else 0)
          else h.tailIndex,
        curIndex := if h.headIndex + 1 < HISTORY_DEPTH then h.headIndex + 1 else 0 }
  else h

/-- The state after `HistoryInit` within a freshly created (zeroed) session. -/
def historyInitState : CLI_HISTORY :=
  ⟨List.replicate HISTORY_DEPTH [], 0, 0, 0⟩

/-- The decremented-and-clamped browse cursor of `HistoryScrollUp`. -/
def historyCurDecrement (h : CLI_HISTORY) : Nat :=
  if HISTORY_DEPTH ≤ (h.curIndex + M32 - 1) % M32 then HISTORY_DEPTH - 1
  else (h.curIndex + M32 - 1) % M32

/-- `HistoryScrollUp`: `NULL` at the oldest entry, otherwise move the browse
cursor back one slot (1`uint32_t` decrement, clamped) and return that entry. -/
def HistoryScrollUp (h : CLI_HISTORY) : Option (List Nat) × CLI_HISTORY :=
  if h.curIndex ≠ h.tailIndex then
    (some (h.list.getD (historyCurDecrement h) []), { h with curIndex := historyCurDecrement h })
  else (none, h)

/-- Append a whole command sequence. -/
def historyAppendAll (h : CLI_HISTORY) (cs : List (List Nat)) : CLI_HISTORY :=
  cs.foldl HistoryAppend h

/-- Collect the results of `n` successive `HistoryScrollUp` calls. -/
def scrollUpSeq : CLI_HISTORY → Nat → List (Option (List Nat))
  | _, 0 => []
  | h, n + 1 => (HistoryScrollUp h).1 :: scrollUpSeq (HistoryScrollUp h).2 n

lemma scrollUpSeq_succ (h : CLI_HISTORY) (n : Nat) :
    scrollUpSeq h (n + 1) = (HistoryScrollUp h).1 :: scrollUpSeq (HistoryScrollUp h).2 n := rfl

lemma strCopy_id {l : List Nat} (h : l.length ≤ HISTORY_ENTRY_LENGTH) :
    StrCopy l HISTORY_ENTRY_LENGTH = l := by
  unfold StrCopy
  exact List.take_of_length_le h

lemma checkDup_empty (h : CLI_HISTORY) (he : h.headIndex = h.tailIndex) (cmd : List Nat) :
    HistoryCheckForDuplicate h cmd = false := by
  unfold HistoryCheckForDuplicate
  rw [if_neg (by simp [he])]

lemma checkDup_false_of_ne (h : CLI_HISTORY) (cmd prev : List Nat)
    (hrec : h.list.getD (historyRecentIndex h) [] = prev)
    (hne2 : cmd ≠ prev)
    (h0c : ∀ x ∈ cmd, x ≠ 0) (h0p : ∀ x ∈ prev, x ≠ 0)
    (hlc : cmd.length ≤ APP_CFG_CLI_MAX_CMD_LENGTH)
    (hlp : prev.length ≤ APP_CFG_CLI_MAX_CMD_LENGTH) :
    HistoryCheckForDuplicate h cmd = false := by
  unfold HistoryCheckForDuplicate
  split
  · rw [hrec]
    have hiff := strncmp_eq_zero_iff APP_CFG_CLI_MAX_CMD_LENGTH cmd prev h0c h0p hlc hlp
    by_cases hd : strncmp cmd prev APP_CFG_CLI_MAX_CMD_LENGTH = 0
    · exact absurd (hiff.mp hd) hne2
    · simp [hd]
  · rfl

/-- An append of a fresh (trimmed, nonempty, non-duplicate) command. -/
lemma HistoryAppend_fresh (h : CLI_HISTORY) (cmd : List Nat)
    (ht : TrimWhiteSpaces cmd = cmd) (hne : cmd ≠ [])
    (hdup : HistoryCheckForDuplicate h cmd = false) :
    HistoryAppend h cmd =
      { list := h.list.set h.headIndex (StrCopy cmd HISTORY_ENTRY_LENGTH),
        headIndex := if h.headIndex + 1 < HISTORY_DEPTH then h.headIndex + 1 else 0,
        tailIndex :=
          if (if h.headIndex + 1 < HISTORY_DEPTH then h.headIndex + 1 else 0) = h.tailIndex
          then (if h.tailIndex + 1 < HISTORY_DEPTH then h.tailIndex + 1 else 0)
          else h.tailIndex,
        curIndex := if h.headIndex + 1 < HISTORY_DEPTH then h.headIndex + 1 else 0 } := by
  unfold HistoryAppend
  rw [ht]
  rw [if_pos (fun hc => hne (List.length_eq_zero.mp hc))]
  rw [if_neg (by simp [hdup])]

set_option maxRecDepth 100000 in
/-- C8 (amended): appending `HISTORY_DEPTH + 1 = 17` pairwise distinct
non-empty trimmed commands to the freshly initialised ring leaves exactly the
most recent `HISTORY_DEPTH - 1 = 15` of them retrievable by repeated
`HistoryScrollUp` calls, newest first, after which scrolling yields `NULL`
(the ring keeps `headIndex == tailIndex` for "empty", which sacrifices one
slot). -/
theorem C8_history_capacity (c : Nat → List Nat)
    (htrim : ∀ i, i < 17 → TrimWhiteSpaces (c i) = c i)
    (hne : ∀ i, i < 17 → c i ≠ [])
    (hnul : ∀ i, i < 17 → ∀ b ∈ c i, b ≠ 0)
    (hlen : ∀ i, i < 17 → (c i).length ≤ 64)
    (hdist : ∀ i, i < 17 → ∀ j, j < 17 → i ≠ j → c i ≠ c j) :
    scrollUpSeq (historyAppendAll historyInitState [c 0, c 1, c 2, c 3, c 4, c 5, c 6, c 7, c 8, c 9, c 10, c 11, c 12, c 13, c 14, c 15, c 16]) 16
      = [some (c 16), some (c 15), some (c 14), some (c 13), some (c 12), some (c 11), some (c 10), some (c 9), some (c 8), some (c 7), some (c 6), some (c 5), some (c 4), some (c 3), some (c 2), none] := by
  have hlen64 : ∀ i, i < 17 → (c i).length ≤ APP_CFG_CLI_MAX_CMD_LENGTH := by
    intro i hi
    have := hlen i hi
    unfold APP_CFG_CLI_MAX_CMD_LENGTH
    omega
  have hlen96 : ∀ i, i < 17 → (c i).length ≤ HISTORY_ENTRY_LENGTH := by
    intro i hi
    have := hlen i hi
    unfold HISTORY_ENTRY_LENGTH APP_CFG_CLI_MAX_CMD_LENGTH APP_CFG_CLI_MAX_PARAM_LENGTH
    omega
  have e1 : HistoryAppend historyInitState (c 0) = (⟨[c 0, ([] : List Nat), ([] : List Nat), ([] : List Nat), ([] : List Nat), ([] : List Nat), ([] : List Nat), ([] : List Nat), ([] : List Nat), ([] : List Nat), ([] : List Nat), ([] : List Nat), ([] : List Nat), ([] : List Nat), ([] : List Nat), ([] : List Nat)], 1, 0, 1⟩ : CLI_HISTORY) := by
    rw [HistoryAppend_fresh historyInitState (c 0) (htrim 0 (by omega)) (hne 0 (by omega))
      (checkDup_empty historyInitState rfl (c 0))]
    rw [strCopy_id (hlen96 0 (by omega))]
    rfl
  have e2 : HistoryAppend (⟨[c 0, ([] : List Nat), ([] : List Nat), ([] : List Nat), ([] : List Nat), ([] : List Nat), ([] : List Nat), ([] : List Nat), ([] : List Nat), ([] : List Nat), ([] : List Nat), ([] : List Nat), ([] : List Nat), ([] : List Nat), ([] : List Nat), ([] : List Nat)], 1, 0, 1⟩ : CLI_HISTORY) (c 1) = (⟨[c 0, c 1, ([] : List Nat), ([] : List Nat), ([] : List Nat), ([] : List Nat), ([] : List Nat), ([] : List Nat), ([] : List Nat), ([] : List Nat), ([] : List Nat), ([] : List Nat), ([] : List Nat), ([] : List Nat), ([] : List Nat), ([] : List Nat)], 2, 0, 2⟩ : CLI_HISTORY) := by
    rw [HistoryAppend_fresh _ (c 1) (htrim 1 (by omega)) (hne 1 (by omega))
      (checkDup_false_of_ne _ (c 1) (c 0)
        (by simp only [historyRecentIndex]; norm_num [HISTORY_DEPTH, M32])
        (hdist 1 (by omega) 0 (by omega) (by omega))
        (hnul 1 (by omega)) (hnul 0 (by omega))
        (hlen64 1 (by omega)) (hlen64 0 (by omega)))]
    rw [strCopy_id (hlen96 1 (by omega))]
    rfl
  have e3 : HistoryAppend (⟨[c 0, c 1, ([] : List Nat), ([] : List Nat), ([] : List Nat), ([] : List Nat), ([] : List Nat), ([] : List Nat), ([] : List Nat), ([] : List Nat), ([] : List Nat), ([] : List Nat), ([] : List Nat), ([] : List Nat), ([] : List Nat), ([] : List Nat)], 2, 0, 2⟩ : CLI_HISTORY) (c 2) = (⟨[c 0, c 1, c 2, ([] : List Nat), ([] : List Nat), ([] : List Nat), ([] : List Nat), ([] : List Nat), ([] : List Nat), ([] : List Nat), ([] : List Nat), ([] : List Nat), ([] : List Nat), ([] : List Nat), ([] : List Nat), ([] : List Nat)], 3, 0, 3⟩ : CLI_HISTORY) := by
    rw [HistoryAppend_fresh _ (c 2) (htrim 2 (by omega)) (hne 2 (by omega))
      (checkDup_false_of_ne _ (c 2) (c 1)
        (by simp only [historyRecentIndex]; norm_num [HISTORY_DEPTH, M32])
        (hdist 2 (by omega) 1 (by omega) (by omega))
        (hnul 2 (by omega)) (hnul 1 (by omega))
        (hlen64 2 (by omega)) (hlen64 1 (by omega)))]
    rw [strCopy_id (hlen96 2 (by omega))]
    rfl
  have e4 : HistoryAppend (⟨[c 0, c 1, c 2, ([] : List Nat), ([] : List Nat), ([] : List Nat), ([] : List Nat), ([] : List Nat), ([] : List Nat), ([] : List Nat), ([] : List Nat), ([] : List Nat), ([] : List Nat), ([] : List Nat), ([] : List Nat), ([] : List Nat)], 3, 0, 3⟩ : CLI_HISTORY) (c 3) = (⟨[c 0, c 1, c 2, c 3, ([] : List Nat), ([] : List Nat), ([] : List Nat), ([] : List Nat), ([] : List Nat), ([] : List Nat), ([] : List Nat), ([] : List Nat), ([] : List Nat), ([] : List Nat), ([] : List Nat), ([] : List Nat)], 4, 0, 4⟩ : CLI_HISTORY) := by
    rw [HistoryAppend_fresh _ (c 3) (htrim 3 (by omega)) (hne 3 (by omega))
      (checkDup_false_of_ne _ (c 3) (c 2)
        (by simp only [historyRecentIndex]; norm_num [HISTORY_DEPTH, M32])
        (hdist 3 (by omega) 2 (by omega) (by omega))
        (hnul 3 (by omega)) (hnul 2 (by omega))
        (hlen64 3 (by omega)) (hlen64 2 (by omega)))]
    rw [strCopy_id (hlen96 3 (by omega))]
    rfl
  have e5 : HistoryAppend (⟨[c 0, c 1, c 2, c 3, ([] : List Nat), ([] : List Nat), ([] : List Nat), ([] : List Nat), ([] : List Nat), ([] : List Nat), ([] : List Nat), ([] : List Nat), ([] : List Nat), ([] : List Nat), ([] : List Nat), ([] : List Nat)], 4, 0, 4⟩ : CLI_HISTORY) (c 4) = (⟨[c 0, c 1, c 2, c 3, c 4, ([] : List Nat), ([] : List Nat), ([] : List Nat), ([] : List Nat), ([] : List Nat), ([] : List Nat), ([] : List Nat), ([] : List Nat), ([] : List Nat), ([] : List Nat), ([] : List Nat)], 5, 0, 5⟩ : CLI_HISTORY) := by
    rw [HistoryAppend_fresh _ (c 4) (htrim 4 (by omega)) (hne 4 (by omega))
      (checkDup_false_of_ne _ (c 4) (c 3)
        (by simp only [historyRecentIndex]; norm_num [HISTORY_DEPTH, M32])
        (hdist 4 (by omega) 3 (by omega) (by omega))
        (hnul 4 (by omega)) (hnul 3 (by omega))
        (hlen64 4 (by omega)) (hlen64 3 (by omega)))]
    rw [strCopy_id (hlen96 4 (by omega))]
    rfl
  have e6 : HistoryAppend (⟨[c 0, c 1, c 2, c 3, c 4, ([] : List Nat), ([] : List Nat), ([] : List Nat), ([] : List Nat), ([] : List Nat), ([] : List Nat), ([] : List Nat), ([] : List Nat), ([] : List Nat), ([] : List Nat), ([] : List Nat)], 5, 0, 5⟩ : CLI_HISTORY) (c 5) = (⟨[c 0, c 1, c 2, c 3, c 4, c 5, ([] : List Nat), ([] : List Nat), ([] : List Nat), ([] : List Nat), ([] : List Nat), ([] : List Nat), ([] : List Nat), ([] : List Nat), ([] : List Nat), ([] : List Nat)], 6, 0, 6⟩ : CLI_HISTORY) := by
    rw [HistoryAppend_fresh _ (c 5) (htrim 5 (by omega)) (hne 5 (by omega))
      (checkDup_false_of_ne _ (c 5) (c 4)
        (by simp only [historyRecentIndex]; norm_num [HISTORY_DEPTH, M32])
        (hdist 5 (by omega) 4 (by omega) (by omega))
        (hnul 5 (by omega)) (hnul 4 (by omega))
        (hlen64 5 (by omega)) (hlen64 4 (by omega)))]
    rw [strCopy_id (hlen96 5 (by omega))]
    rfl
  have e7 : HistoryAppend (⟨[c 0, c 1, c 2, c 3, c 4, c 5, ([] : List Nat), ([] : List Nat), ([] : List Nat), ([] : List Nat), ([] : List Nat), ([] : List Nat), ([] : List Nat), ([] : List Nat), ([] : List Nat), ([] : List Nat)], 6, 0, 6⟩ : CLI_HISTORY) (c 6) = (⟨[c 0, c 1, c 2, c 3, c 4, c 5, c 6, ([] : List Nat), ([] : List Nat), ([] : List Nat), ([] : List Nat), ([] : List Nat), ([] : List Nat), ([] : List Nat), ([] : List Nat), ([] : List Nat)], 7, 0, 7⟩ : CLI_HISTORY) := by
    rw [HistoryAppend_fresh _ (c 6) (htrim 6 (by omega)) (hne 6 (by omega))
      (checkDup_false_of_ne _ (c 6) (c 5)
        (by simp only [historyRecentIndex]; norm_num [HISTORY_DEPTH, M32])
        (hdist 6 (by omega) 5 (by omega) (by omega))
        (hnul 6 (by omega)) (hnul 5 (by omega))
        (hlen64 6 (by omega)) (hlen64 5 (by omega)))]
    rw [strCopy_id (hlen96 6 (by omega))]
    rfl
  have e8 : HistoryAppend (⟨[c 0, c 1, c 2, c 3, c 4, c 5, c 6, ([] : List Nat), ([] : List Nat), ([] : List Nat), ([] : List Nat), ([] : List Nat), ([] : List Nat), ([] : List Nat), ([] : List Nat), ([] : List Nat)], 7, 0, 7⟩ : CLI_HISTORY) (c 7) = (⟨[c 0, c 1, c 2, c 3, c 4, c 5, c 6, c 7, ([] : List Nat), ([] : List Nat), ([] : List Nat), ([] : List Nat), ([] : List Nat), ([] : List Nat), ([] : List Nat), ([] : List Nat)], 8, 0, 8⟩ : CLI_HISTORY) := by
    rw [HistoryAppend_fresh _ (c 7) (htrim 7 (by omega)) (hne 7 (by omega))
      (checkDup_false_of_ne _ (c 7) (c 6)
        (by simp only [historyRecentIndex]; norm_num [HISTORY_DEPTH, M32])
        (hdist 7 (by omega) 6 (by omega) (by omega))
        (hnul 7 (by omega)) (hnul 6 (by omega))
        (hlen64 7 (by omega)) (hlen64 6 (by omega)))]
    rw [strCopy_id (hlen96 7 (by omega))]
    rfl
  have e9 : HistoryAppend (⟨[c 0, c 1, c 2, c 3, c 4, c 5, c 6, c 7, ([] : List Nat), ([] : List Nat), ([] : List Nat), ([] : List Nat), ([] : List Nat), ([] : List Nat), ([] : List Nat), ([] : List Nat)], 8, 0, 8⟩ : CLI_HISTORY) (c 8) = (⟨[c 0, c 1, c 2, c 3, c 4, c 5, c 6, c 7, c 8, ([] : List Nat), ([] : List Nat), ([] : List Nat), ([] : List Nat), ([] : List Nat), ([] : List Nat), ([] : List Nat)], 9, 0, 9⟩ : CLI_HISTORY) := by
    rw [HistoryAppend_fresh _ (c 8) (htrim 8 (by omega)) (hne 8 (by omega))
      (checkDup_false_of_ne _ (c 8) (c 7)
        (by simp only [historyRecentIndex]; norm_num [HISTORY_DEPTH, M32])
        (hdist 8 (by omega) 7 (by omega) (by omega))
        (hnul 8 (by omega)) (hnul 7 (by omega))
        (hlen64 8 (by omega)) (hlen64 7 (by omega)))]
    rw [strCopy_id (hlen96 8 (by omega))]
    rfl
  have e10 : HistoryAppend (⟨[c 0, c 1, c 2, c 3, c 4, c 5, c 6, c 7, c 8, ([] : List Nat), ([] : List Nat), ([] : List Nat), ([] : List Nat), ([] : List Nat), ([] : List Nat), ([] : List Nat)], 9, 0, 9⟩ : CLI_HISTORY) (c 9) = (⟨[c 0, c 1, c 2, c 3, c 4, c 5, c 6, c 7, c 8, c 9, ([] : List Nat), ([] : List Nat), ([] : List Nat), ([] : List Nat), ([] : List Nat), ([] : List Nat)], 10, 0, 10⟩ : CLI_HISTORY) := by
    rw [HistoryAppend_fresh _ (c 9) (htrim 9 (by omega)) (hne 9 (by omega))
      (checkDup_false_of_ne _ (c 9) (c 8)
        (by simp only [historyRecentIndex]; norm_num [HISTORY_DEPTH, M32])
        (hdist 9 (by omega) 8 (by omega) (by omega))
        (hnul 9 (by omega)) (hnul 8 (by omega))
        (hlen64 9 (by omega)) (hlen64 8 (by omega)))]
    rw [strCopy_id (hlen96 9 (by omega))]
    rfl
  have e11 : HistoryAppend (⟨[c 0, c 1, c 2, c 3, c 4, c 5, c 6, c 7, c 8, c 9, ([] : List Nat), ([] : List Nat), ([] : List Nat), ([] : List Nat), ([] : List Nat), ([] : List Nat)], 10, 0, 10⟩ : CLI_HISTORY) (c 10) = (⟨[c 0, c 1, c 2, c 3, c 4, c 5, c 6, c 7, c 8, c 9, c 10, ([] : List Nat), ([] : List Nat), ([] : List Nat), ([] : List Nat), ([] : List Nat)], 11, 0, 11⟩ : CLI_HISTORY) := by
    rw [HistoryAppend_fresh _ (c 10) (htrim 10 (by omega)) (hne 10 (by omega))
      (checkDup_false_of_ne _ (c 10) (c 9)
        (by simp only [historyRecentIndex]; norm_num [HISTORY_DEPTH, M32])
        (hdist 10 (by omega) 9 (by omega) (by omega))
        (hnul 10 (by omega)) (hnul 9 (by omega))
        (hlen64 10 (by omega)) (hlen64 9 (by omega)))]
    rw [strCopy_id (hlen96 10 (by omega))]
    rfl
  have e12 : HistoryAppend (⟨[c 0, c 1, c 2, c 3, c 4, c 5, c 6, c 7, c 8, c 9, c 10, ([] : List Nat), ([] : List Nat), ([] : List Nat), ([] : List Nat), ([] : List Nat)], 11, 0, 11⟩ : CLI_HISTORY) (c 11) = (⟨[c 0, c 1, c 2, c 3, c 4, c 5, c 6, c 7, c 8, c 9, c 10, c 11, ([] : List Nat), ([] : List Nat), ([] : List Nat), ([] : List Nat)], 12, 0, 12⟩ : CLI_HISTORY) := by
    rw [HistoryAppend_fresh _ (c 11) (htrim 11 (by omega)) (hne 11 (by omega))
      (checkDup_false_of_ne _ (c 11) (c 10)
        (by simp only [historyRecentIndex]; norm_num [HISTORY_DEPTH, M32])
        (hdist 11 (by omega) 10 (by omega) (by omega))
        (hnul 11 (by omega)) (hnul 10 (by omega))
        (hlen64 11 (by omega)) (hlen64 10 (by omega)))]
    rw [strCopy_id (hlen96 11 (by omega))]
    rfl
  have e13 : HistoryAppend (⟨[c 0, c 1, c 2, c 3, c 4, c 5, c 6, c 7, c 8, c 9, c 10, c 11, ([] : List Nat), ([] : List Nat), ([] : List Nat), ([] : List Nat)], 12, 0, 12⟩ : CLI_HISTORY) (c 12) = (⟨[c 0, c 1, c 2, c 3, c 4, c 5, c 6, c 7, c 8, c 9, c 10, c 11, c 12, ([] : List Nat), ([] : List Nat), ([] : List Nat)], 13, 0, 13⟩ : CLI_HISTORY) := by
    rw [HistoryAppend_fresh _ (c 12) (htrim 12 (by omega)) (hne 12 (by omega))
      (checkDup_false_of_ne _ (c 12) (c 11)
        (by simp only [historyRecentIndex]; norm_num [HISTORY_DEPTH, M32])
        (hdist 12 (by omega) 11 (by omega) (by omega))
        (hnul 12 (by omega)) (hnul 11 (by omega))
        (hlen64 12 (by omega)) (hlen64 11 (by omega)))]
    rw [strCopy_id (hlen96 12 (by omega))]
    rfl
  have e14 : HistoryAppend (⟨[c 0, c 1, c 2, c 3, c 4, c 5, c 6, c 7, c 8, c 9, c 10, c 11, c 12, ([] : List Nat), ([] : List Nat), ([] : List Nat)], 13, 0, 13⟩ : CLI_HISTORY) (c 13) = (⟨[c 0, c 1, c 2, c 3, c 4, c 5, c 6, c 7, c 8, c 9, c 10, c 11, c 12, c 13, ([] : List Nat), ([] : List Nat)], 14, 0, 14⟩ : CLI_HISTORY) := by
    rw [HistoryAppend_fresh _ (c 13) (htrim 13 (by omega)) (hne 13 (by omega))
      (checkDup_false_of_ne _ (c 13) (c 12)
        (by simp only [historyRecentIndex]; norm_num [HISTORY_DEPTH, M32])
        (hdist 13 (by omega) 12 (by omega) (by omega))
        (hnul 13 (by omega)) (hnul 12 (by omega))
        (hlen64 13 (by omega)) (hlen64 12 (by omega)))]
    rw [strCopy_id (hlen96 13 (by omega))]
    rfl
  have e15 : HistoryAppend (⟨[c 0, c 1, c 2, c 3, c 4, c 5, c 6, c 7, c 8, c 9, c 10, c 11, c 12, c 13, ([] : List Nat), ([] : List Nat)], 14, 0, 14⟩ : CLI_HISTORY) (c 14) = (⟨[c 0, c 1, c 2, c 3, c 4, c 5, c 6, c 7, c 8, c 9, c 10, c 11, c 12, c 13, c 14, ([] : List Nat)], 15, 0, 15⟩ : CLI_HISTORY) := by
    rw [HistoryAppend_fresh _ (c 14) (htrim 14 (by omega)) (hne 14 (by omega))
      (checkDup_false_of_ne _ (c 14) (c 13)
        (by simp only [historyRecentIndex]; norm_num [HISTORY_DEPTH, M32])
        (hdist 14 (by omega) 13 (by omega) (by omega))
        (hnul 14 (by omega)) (hnul 13 (by omega))
        (hlen64 14 (by omega)) (hlen64 13 (by omega)))]
    rw [strCopy_id (hlen96 14 (by omega))]
    rfl
  have e16 : HistoryAppend (⟨[c 0, c 1, c 2, c 3, c 4, c 5, c 6, c 7, c 8, c 9, c 10, c 11, c 12, c 13, c 14, ([] : List Nat)], 15, 0, 15⟩ : CLI_HISTORY) (c 15) = (⟨[c 0, c 1, c 2, c 3, c 4, c 5, c 6, c 7, c 8, c 9, c 10, c 11, c 12, c 13, c 14, c 15], 0, 1, 0⟩ : CLI_HISTORY) := by
    rw [HistoryAppend_fresh _ (c 15) (htrim 15 (by omega)) (hne 15 (by omega))
      (checkDup_false_of_ne _ (c 15) (c 14)
        (by simp only [historyRecentIndex]; norm_num [HISTORY_DEPTH, M32])
        (hdist 15 (by omega) 14 (by omega) (by omega))
        (hnul 15 (by omega)) (hnul 14 (by omega))
        (hlen64 15 (by omega)) (hlen64 14 (by omega)))]
    rw [strCopy_id (hlen96 15 (by omega))]
    rfl
  have e17 : HistoryAppend (⟨[c 0, c 1, c 2, c 3, c 4, c 5, c 6, c 7, c 8, c 9, c 10, c 11, c 12, c 13, c 14, c 15], 0, 1, 0⟩ : CLI_HISTORY) (c 16) = (⟨[c 16, c 1, c 2, c 3, c 4, c 5, c 6, c 7, c 8, c 9, c 10, c 11, c 12, c 13, c 14, c 15], 1, 2, 1⟩ : CLI_HISTORY) := by
    rw [HistoryAppend_fresh _ (c 16) (htrim 16 (by omega)) (hne 16 (by omega))
      (checkDup_false_of_ne _ (c 16) (c 15)
        (by simp only [historyRecentIndex]; norm_num [HISTORY_DEPTH, M32])
        (hdist 16 (by omega) 15 (by omega) (by omega))
        (hnul 16 (by omega)) (hnul 15 (by omega))
        (hlen64 16 (by omega)) (hlen64 15 (by omega)))]
    rw [strCopy_id (hlen96 16 (by omega))]
    rfl
  have hall : historyAppendAll historyInitState [c 0, c 1, c 2, c 3, c 4, c 5, c 6, c 7, c 8, c 9, c 10, c 11, c 12, c 13, c 14, c 15, c 16] = (⟨[c 16, c 1, c 2, c 3, c 4, c 5, c 6, c 7, c 8, c 9, c 10, c 11, c 12, c 13, c 14, c 15], 1, 2, 1⟩ : CLI_HISTORY) := by
    simp only [historyAppendAll, List.foldl]
    rw [e1, e2, e3, e4, e5, e6, e7, e8, e9, e10, e11, e12, e13, e14, e15, e16, e17]
  have f1 : HistoryScrollUp (⟨[c 16, c 1, c 2, c 3, c 4, c 5, c 6, c 7, c 8, c 9, c 10, c 11, c 12, c 13, c 14, c 15], 1, 2, 1⟩ : CLI_HISTORY) = (some (c 16), (⟨[c 16, c 1, c 2, c 3, c 4, c 5, c 6, c 7, c 8, c 9, c 10, c 11, c 12, c 13, c 14, c 15], 1, 2, 0⟩ : CLI_HISTORY)) := by
    unfold HistoryScrollUp historyCurDecrement
    norm_num [HISTORY_DEPTH, M32, List.getD]
  have f2 : HistoryScrollUp (⟨[c 16, c 1, c 2, c 3, c 4, c 5, c 6, c 7, c 8, c 9, c 10, c 11, c 12, c 13, c 14, c 15], 1, 2, 0⟩ : CLI_HISTORY) = (some (c 15), (⟨[c 16, c 1, c 2, c 3, c 4, c 5, c 6, c 7, c 8, c 9, c 10, c 11, c 12, c 13, c 14, c 15], 1, 2, 15⟩ : CLI_HISTORY)) := by
    unfold HistoryScrollUp historyCurDecrement
    norm_num [HISTORY_DEPTH, M32, List.getD]
  have f3 : HistoryScrollUp (⟨[c 16, c 1, c 2, c 3, c 4, c 5, c 6, c 7, c 8, c 9, c 10, c 11, c 12, c 13, c 14, c 15], 1, 2, 15⟩ : CLI_HISTORY) = (some (c 14), (⟨[c 16, c 1, c 2, c 3, c 4, c 5, c 6, c 7, c 8, c 9, c 10, c 11, c 12, c 13, c 14, c 15], 1, 2, 14⟩ : CLI_HISTORY)) := by
    unfold HistoryScrollUp historyCurDecrement
    norm_num [HISTORY_DEPTH, M32, List.getD]
  have f4 : HistoryScrollUp (⟨[c 16, c 1, c 2, c 3, c 4, c 5, c 6, c 7, c 8, c 9, c 10, c 11, c 12, c 13, c 14, c 15], 1, 2, 14⟩ : CLI_HISTORY) = (some (c 13), (⟨[c 16, c 1, c 2, c 3, c 4, c 5, c 6, c 7, c 8, c 9, c 10, c 11, c 12, c 13, c 14, c 15], 1, 2, 13⟩ : CLI_HISTORY)) := by
    unfold HistoryScrollUp historyCurDecrement
    norm_num [HISTORY_DEPTH, M32, List.getD]
  have f5 : HistoryScrollUp (⟨[c 16, c 1, c 2, c 3, c 4, c 5, c 6, c 7, c 8, c 9, c 10, c 11, c 12, c 13, c 14, c 15], 1, 2, 13⟩ : CLI_HISTORY) = (some (c 12), (⟨[c 16, c 1, c 2, c 3, c 4, c 5, c 6, c 7, c 8, c 9, c 10, c 11, c 12, c 13, c 14, c 15], 1, 2, 12⟩ : CLI_HISTORY)) := by
    unfold HistoryScrollUp historyCurDecrement
    norm_num [HISTORY_DEPTH, M32, List.getD]
  have f6 : HistoryScrollUp (⟨[c 16, c 1, c 2, c 3, c 4, c 5, c 6, c 7, c 8, c 9, c 10, c 11, c 12, c 13, c 14, c 15], 1, 2, 12⟩ : CLI_HISTORY) = (some (c 11), (⟨[c 16, c 1, c 2, c 3, c 4, c 5, c 6, c 7, c 8, c 9, c 10, c 11, c 12, c 13, c 14, c 15], 1, 2, 11⟩ : CLI_HISTORY)) := by
    unfold HistoryScrollUp historyCurDecrement
    norm_num [HISTORY_DEPTH, M32, List.getD]
  have f7 : HistoryScrollUp (⟨[c 16, c 1, c 2, c 3, c 4, c 5, c 6, c 7, c 8, c 9, c 10, c 11, c 12, c 13, c 14, c 15], 1, 2, 11⟩ : CLI_HISTORY) = (some (c 10), (⟨[c 16, c 1, c 2, c 3, c 4, c 5, c 6, c 7, c 8, c 9, c 10, c 11, c 12, c 13, c 14, c 15], 1, 2, 10⟩ : CLI_HISTORY)) := by
    unfold HistoryScrollUp historyCurDecrement
    norm_num [HISTORY_DEPTH, M32, List.getD]
  have f8 : HistoryScrollUp (⟨[c 16, c 1, c 2, c 3, c 4, c 5, c 6, c 7, c 8, c 9, c 10, c 11, c 12, c 13, c 14, c 15], 1, 2, 10⟩ : CLI_HISTORY) = (some (c 9), (⟨[c 16, c 1, c 2, c 3, c 4, c 5, c 6, c 7, c 8, c 9, c 10, c 11, c 12, c 13, c 14, c 15], 1, 2, 9⟩ : CLI_HISTORY)) := by
    unfold HistoryScrollUp historyCurDecrement
    norm_num [HISTORY_DEPTH, M32, List.getD]
  have f9 : HistoryScrollUp (⟨[c 16, c 1, c 2, c 3, c 4, c 5, c 6, c 7, c 8, c 9, c 10, c 11, c 12, c 13, c 14, c 15], 1, 2, 9⟩ : CLI_HISTORY) = (some (c 8), (⟨[c 16, c 1, c 2, c 3, c 4, c 5, c 6, c 7, c 8, c 9, c 10, c 11, c 12, c 13, c 14, c 15], 1, 2, 8⟩ : CLI_HISTORY)) := by
    unfold HistoryScrollUp historyCurDecrement
    norm_num [HISTORY_DEPTH, M32, List.getD]
  have f10 : HistoryScrollUp (⟨[c 16, c 1, c 2, c 3, c 4, c 5, c 6, c 7, c 8, c 9, c 10, c 11, c 12, c 13, c 14, c 15], 1, 2, 8⟩ : CLI_HISTORY) = (some (c 7), (⟨[c 16, c 1, c 2, c 3, c 4, c 5, c 6, c 7, c 8, c 9, c 10, c 11, c 12, c 13, c 14, c 15], 1, 2, 7⟩ : CLI_HISTORY)) := by
    unfold HistoryScrollUp historyCurDecrement
    norm_num [HISTORY_DEPTH, M32, List.getD]
  have f11 : HistoryScrollUp (⟨[c 16, c 1, c 2, c 3, c 4, c 5, c 6, c 7, c 8, c 9, c 10, c 11, c 12, c 13, c 14, c 15], 1, 2, 7⟩ : CLI_HISTORY) = (some (c 6), (⟨[c 16, c 1, c 2, c 3, c 4, c 5, c 6, c 7, c 8, c 9, c 10, c 11, c 12, c 13, c 14, c 15], 1, 2, 6⟩ : CLI_HISTORY)) := by
    unfold HistoryScrollUp historyCurDecrement
    norm_num [HISTORY_DEPTH, M32, List.getD]
  have f12 : HistoryScrollUp (⟨[c 16, c 1, c 2, c 3, c 4, c 5, c 6, c 7, c 8, c 9, c 10, c 11, c 12, c 13, c 14, c 15], 1, 2, 6⟩ : CLI_HISTORY) = (some (c 5), (⟨[c 16, c 1, c 2, c 3, c 4, c 5, c 6, c 7, c 8, c 9, c 10, c 11, c 12, c 13, c 14, c 15], 1, 2, 5⟩ : CLI_HISTORY)) := by
    unfold HistoryScrollUp historyCurDecrement
    norm_num [HISTORY_DEPTH, M32, List.getD]
  have f13 : HistoryScrollUp (⟨[c 16, c 1, c 2, c 3, c 4, c 5, c 6, c 7, c 8, c 9, c 10, c 11, c 12, c 13, c 14, c 15], 1, 2, 5⟩ : CLI_HISTORY) = (some (c 4), (⟨[c 16, c 1, c 2, c 3, c 4, c 5, c 6, c 7, c 8, c 9, c 10, c 11, c 12, c 13, c 14, c 15], 1, 2, 4⟩ : CLI_HISTORY)) := by
    unfold HistoryScrollUp historyCurDecrement
    norm_num [HISTORY_DEPTH, M32, List.getD]
  have f14 : HistoryScrollUp (⟨[c 16, c 1, c 2, c 3, c 4, c 5, c 6, c 7, c 8, c 9, c 10, c 11, c 12, c 13, c 14, c 15], 1, 2, 4⟩ : CLI_HISTORY) = (some (c 3), (⟨[c 16, c 1, c 2, c 3, c 4, c 5, c 6, c 7, c 8, c 9, c 10, c 11, c 12, c 13, c 14, c 15], 1, 2, 3⟩ : CLI_HISTORY)) := by
    unfold HistoryScrollUp historyCurDecrement
    norm_num [HISTORY_DEPTH, M32, List.getD]
  have f15 : HistoryScrollUp (⟨[c 16, c 1, c 2, c 3, c 4, c 5, c 6, c 7, c 8, c 9, c 10, c 11, c 12, c 13, c 14, c 15], 1, 2, 3⟩ : CLI_HISTORY) = (some (c 2), (⟨[c 16, c 1, c 2, c 3, c 4, c 5, c 6, c 7, c 8, c 9, c 10, c 11, c 12, c 13, c 14, c 15], 1, 2, 2⟩ : CLI_HISTORY)) := by
    unfold HistoryScrollUp historyCurDecrement
    norm_num [HISTORY_DEPTH, M32, List.getD]
  have f16 : HistoryScrollUp (⟨[c 16, c 1, c 2, c 3, c 4, c 5, c 6, c 7, c 8, c 9, c 10, c 11, c 12, c 13, c 14, c 15], 1, 2, 2⟩ : CLI_HISTORY) = (none, (⟨[c 16, c 1, c 2, c 3, c 4, c 5, c 6, c 7, c 8, c 9, c 10, c 11, c 12, c 13, c 14, c 15], 1, 2, 2⟩ : CLI_HISTORY)) := by
    unfold HistoryScrollUp
    norm_num
  have g16 : scrollUpSeq (⟨[c 16, c 1, c 2, c 3, c 4, c 5, c 6, c 7, c 8, c 9, c 10, c 11, c 12, c 13, c 14, c 15], 1, 2, 1⟩ : CLI_HISTORY) 16 = some (c 16) :: scrollUpSeq (⟨[c 16, c 1, c 2, c 3, c 4, c 5, c 6, c 7, c 8, c 9, c 10, c 11, c 12, c 13, c 14, c 15], 1, 2, 0⟩ : CLI_HISTORY) 15 := by
    have hs : scrollUpSeq (⟨[c 16, c 1, c 2, c 3, c 4, c 5, c 6, c 7, c 8, c 9, c 10, c 11, c 12, c 13, c 14, c 15], 1, 2, 1⟩ : CLI_HISTORY) 16
        = (HistoryScrollUp (⟨[c 16, c 1, c 2, c 3, c 4, c 5, c 6, c 7, c 8, c 9, c 10, c 11, c 12, c 13, c 14, c 15], 1, 2, 1⟩ : CLI_HISTORY)).1 :: scrollUpSeq (HistoryScrollUp (⟨[c 16, c 1, c 2, c 3, c 4, c 5, c 6, c 7, c 8, c 9, c 10, c 11, c 12, c 13, c 14, c 15], 1, 2, 1⟩ : CLI_HISTORY)).2 15 :=
      scrollUpSeq_succ (⟨[c 16, c 1, c 2, c 3, c 4, c 5, c 6, c 7, c 8, c 9, c 10, c 11, c 12, c 13, c 14, c 15], 1, 2, 1⟩ : CLI_HISTORY) 15
    rw [hs, f1]
  have g15 : scrollUpSeq (⟨[c 16, c 1, c 2, c 3, c 4, c 5, c 6, c 7, c 8, c 9, c 10, c 11, c 12, c 13, c 14, c 15], 1, 2, 0⟩ : CLI_HISTORY) 15 = some (c 15) :: scrollUpSeq (⟨[c 16, c 1, c 2, c 3, c 4, c 5, c 6, c 7, c 8, c 9, c 10, c 11, c 12, c 13, c 14, c 15], 1, 2, 15⟩ : CLI_HISTORY) 14 := by
    have hs : scrollUpSeq (⟨[c 16, c 1, c 2, c 3, c 4, c 5, c 6, c 7, c 8, c 9, c 10, c 11, c 12, c 13, c 14, c 15], 1, 2, 0⟩ : CLI_HISTORY) 15
        = (HistoryScrollUp (⟨[c 16, c 1, c 2, c 3, c 4, c 5, c 6, c 7, c 8, c 9, c 10, c 11, c 12, c 13, c 14, c 15], 1, 2, 0⟩ : CLI_HISTORY)).1 :: scrollUpSeq (HistoryScrollUp (⟨[c 16, c 1, c 2, c 3, c 4, c 5, c 6, c 7, c 8, c 9, c 10, c 11, c 12, c 13, c 14, c 15], 1, 2, 0⟩ : CLI_HISTORY)).2 14 :=
      scrollUpSeq_succ (⟨[c 16, c 1, c 2, c 3, c 4, c 5, c 6, c 7, c 8, c 9, c 10, c 11, c 12, c 13, c 14, c 15], 1, 2, 0⟩ : CLI_HISTORY) 14
    rw [hs, f2]
  have g14 : scrollUpSeq (⟨[c 16, c 1, c 2, c 3, c 4, c 5, c 6, c 7, c 8, c 9, c 10, c 11, c 12, c 13, c 14, c 15], 1, 2, 15⟩ : CLI_HISTORY) 14 = some (c 14) :: scrollUpSeq (⟨[c 16, c 1, c 2, c 3, c 4, c 5, c 6, c 7, c 8, c 9, c 10, c 11, c 12, c 13, c 14, c 15], 1, 2, 14⟩ : CLI_HISTORY) 13 := by
    have hs : scrollUpSeq (⟨[c 16, c 1, c 2, c 3, c 4, c 5, c 6, c 7, c 8, c 9, c 10, c 11, c 12, c 13, c 14, c 15], 1, 2, 15⟩ : CLI_HISTORY) 14
        = (HistoryScrollUp (⟨[c 16, c 1, c 2, c 3, c 4, c 5, c 6, c 7, c 8, c 9, c 10, c 11, c 12, c 13, c 14, c 15], 1, 2, 15⟩ : CLI_HISTORY)).1 :: scrollUpSeq (HistoryScrollUp (⟨[c 16, c 1, c 2, c 3, c 4, c 5, c 6, c 7, c 8, c 9, c 10, c 11, c 12, c 13, c 14, c 15], 1, 2, 15⟩ : CLI_HISTORY)).2 13 :=
      scrollUpSeq_succ (⟨[c 16, c 1, c 2, c 3, c 4, c 5, c 6, c 7, c 8, c 9, c 10, c 11, c 12, c 13, c 14, c 15], 1, 2, 15⟩ : CLI_HISTORY) 13
    rw [hs, f3]
  have g13 : scrollUpSeq (⟨[c 16, c 1, c 2, c 3, c 4, c 5, c 6, c 7, c 8, c 9, c 10, c 11, c 12, c 13, c 14, c 15], 1, 2, 14⟩ : CLI_HISTORY) 13 = some (c 13) :: scrollUpSeq (⟨[c 16, c 1, c 2, c 3, c 4, c 5, c 6, c 7, c 8, c 9, c 10, c 11, c 12, c 13, c 14, c 15], 1, 2, 13⟩ : CLI_HISTORY) 12 := by
    have hs : scrollUpSeq (⟨[c 16, c 1, c 2, c 3, c 4, c 5, c 6, c 7, c 8, c 9, c 10, c 11, c 12, c 13, c 14, c 15], 1, 2, 14⟩ : CLI_HISTORY) 13
        = (HistoryScrollUp (⟨[c 16, c 1, c 2, c 3, c 4, c 5, c 6, c 7, c 8, c 9, c 10, c 11, c 12, c 13, c 14, c 15], 1, 2, 14⟩ : CLI_HISTORY)).1 :: scrollUpSeq (HistoryScrollUp (⟨[c 16, c 1, c 2, c 3, c 4, c 5, c 6, c 7, c 8, c 9, c 10, c 11, c 12, c 13, c 14, c 15], 1, 2, 14⟩ : CLI_HISTORY)).2 12 :=
      scrollUpSeq_succ (⟨[c 16, c 1, c 2, c 3, c 4, c 5, c 6, c 7, c 8, c 9, c 10, c 11, c 12, c 13, c 14, c 15], 1, 2, 14⟩ : CLI_HISTORY) 12
    rw [hs, f4]
  have g12 : scrollUpSeq (⟨[c 16, c 1, c 2, c 3, c 4, c 5, c 6, c 7, c 8, c 9, c 10, c 11, c 12, c 13, c 14, c 15], 1, 2, 13⟩ : CLI_HISTORY) 12 = some (c 12) :: scrollUpSeq (⟨[c 16, c 1, c 2, c 3, c 4, c 5, c 6, c 7, c 8, c 9, c 10, c 11, c 12, c 13, c 14, c 15], 1, 2, 12⟩ : CLI_HISTORY) 11 := by
    have hs : scrollUpSeq (⟨[c 16, c 1, c 2, c 3, c 4, c 5, c 6, c 7, c 8, c 9, c 10, c 11, c 12, c 13, c 14, c 15], 1, 2, 13⟩ : CLI_HISTORY) 12
        = (HistoryScrollUp (⟨[c 16, c 1, c 2, c 3, c 4, c 5, c 6, c 7, c 8, c 9, c 10, c 11, c 12, c 13, c 14, c 15], 1, 2, 13⟩ : CLI_HISTORY)).1 :: scrollUpSeq (HistoryScrollUp (⟨[c 16, c 1, c 2, c 3, c 4, c 5, c 6, c 7, c 8, c 9, c 10, c 11, c 12, c 13, c 14, c 15], 1, 2, 13⟩ : CLI_HISTORY)).2 11 :=
      scrollUpSeq_succ (⟨[c 16, c 1, c 2, c 3, c 4, c 5, c 6, c 7, c 8, c 9, c 10, c 11, c 12, c 13, c 14, c 15], 1, 2, 13⟩ : CLI_HISTORY) 11
    rw [hs, f5]
  have g11 : scrollUpSeq (⟨[c 16, c 1, c 2, c 3, c 4, c 5, c 6, c 7, c 8, c 9, c 10, c 11, c 12, c 13, c 14, c 15], 1, 2, 12⟩ : CLI_HISTORY) 11 = some (c 11) :: scrollUpSeq (⟨[c 16, c 1, c 2, c 3, c 4, c 5, c 6, c 7, c 8, c 9, c 10, c 11, c 12, c 13, c 14, c 15], 1, 2, 11⟩ : CLI_HISTORY) 10 := by
    have hs : scrollUpSeq (⟨[c 16, c 1, c 2, c 3, c 4, c 5, c 6, c 7, c 8, c 9, c 10, c 11, c 12, c 13, c 14, c 15], 1, 2, 12⟩ : CLI_HISTORY) 11
        = (HistoryScrollUp (⟨[c 16, c 1, c 2, c 3, c 4, c 5, c 6, c 7, c 8, c 9, c 10, c 11, c 12, c 13, c 14, c 15], 1, 2, 12⟩ : CLI_HISTORY)).1 :: scrollUpSeq (HistoryScrollUp (⟨[c 16, c 1, c 2, c 3, c 4, c 5, c 6, c 7, c 8, c 9, c 10, c 11, c 12, c 13, c 14, c 15], 1, 2, 12⟩ : CLI_HISTORY)).2 10 :=
      scrollUpSeq_succ (⟨[c 16, c 1, c 2, c 3, c 4, c 5, c 6, c 7, c 8, c 9, c 10, c 11, c 12, c 13, c 14, c 15], 1, 2, 12⟩ : CLI_HISTORY) 10
    rw [hs, f6]
  have g10 : scrollUpSeq (⟨[c 16, c 1, c 2, c 3, c 4, c 5, c 6, c 7, c 8, c 9, c 10, c 11, c 12, c 13, c 14, c 15], 1, 2, 11⟩ : CLI_HISTORY) 10 = some (c 10) :: scrollUpSeq (⟨[c 16, c 1, c 2, c 3, c 4, c 5, c 6, c 7, c 8, c 9, c 10, c 11, c 12, c 13, c 14, c 15], 1, 2, 10⟩ : CLI_HISTORY) 9 := by
    have hs : scrollUpSeq (⟨[c 16, c 1, c 2, c 3, c 4, c 5, c 6, c 7, c 8, c 9, c 10, c 11, c 12, c 13, c 14, c 15], 1, 2, 11⟩ : CLI_HISTORY) 10
        = (HistoryScrollUp (⟨[c 16, c 1, c 2, c 3, c 4, c 5, c 6, c 7, c 8, c 9, c 10, c 11, c 12, c 13, c 14, c 15], 1, 2, 11⟩ : CLI_HISTORY)).1 :: scrollUpSeq (HistoryScrollUp (⟨[c 16, c 1, c 2, c 3, c 4, c 5, c 6, c 7, c 8, c 9, c 10, c 11, c 12, c 13, c 14, c 15], 1, 2, 11⟩ : CLI_HISTORY)).2 9 :=
      scrollUpSeq_succ (⟨[c 16, c 1, c 2, c 3, c 4, c 5, c 6, c 7, c 8, c 9, c 10, c 11, c 12, c 13, c 14, c 15], 1, 2, 11⟩ : CLI_HISTORY) 9
    rw [hs, f7]
  have g9 : scrollUpSeq (⟨[c 16, c 1, c 2, c 3, c 4, c 5, c 6, c 7, c 8, c 9, c 10, c 11, c 12, c 13, c 14, c 15], 1, 2, 10⟩ : CLI_HISTORY) 9 = some (c 9) :: scrollUpSeq (⟨[c 16, c 1, c 2, c 3, c 4, c 5, c 6, c 7, c 8, c 9, c 10, c 11, c 12, c 13, c 14, c 15], 1, 2, 9⟩ : CLI_HISTORY) 8 := by
    have hs : scrollUpSeq (⟨[c 16, c 1, c 2, c 3, c 4, c 5, c 6, c 7, c 8, c 9, c 10, c 11, c 12, c 13, c 14, c 15], 1, 2, 10⟩ : CLI_HISTORY) 9
        = (HistoryScrollUp (⟨[c 16, c 1, c 2, c 3, c 4, c 5, c 6, c 7, c 8, c 9, c 10, c 11, c 12, c 13, c 14, c 15], 1, 2, 10⟩ : CLI_HISTORY)).1 :: scrollUpSeq (HistoryScrollUp (⟨[c 16, c 1, c 2, c 3, c 4, c 5, c 6, c 7, c 8, c 9, c 10, c 11, c 12, c 13, c 14, c 15], 1, 2, 10⟩ : CLI_HISTORY)).2 8 :=
      scrollUpSeq_succ (⟨[c 16, c 1, c 2, c 3, c 4, c 5, c 6, c 7, c 8, c 9, c 10, c 11, c 12, c 13, c 14, c 15], 1, 2, 10⟩ : CLI_HISTORY) 8
    rw [hs, f8]
  have g8 : scrollUpSeq (⟨[c 16, c 1, c 2, c 3, c 4, c 5, c 6, c 7, c 8, c 9, c 10, c 11, c 12, c 13, c 14, c 15], 1, 2, 9⟩ : CLI_HISTORY) 8 = some (c 8) :: scrollUpSeq (⟨[c 16, c 1, c 2, c 3, c 4, c 5, c 6, c 7, c 8, c 9, c 10, c 11, c 12, c 13, c 14, c 15], 1, 2, 8⟩ : CLI_HISTORY) 7 := by
    have hs : scrollUpSeq (⟨[c 16, c 1, c 2, c 3, c 4, c 5, c 6, c 7, c 8, c 9, c 10, c 11, c 12, c 13, c 14, c 15], 1, 2, 9⟩ : CLI_HISTORY) 8
        = (HistoryScrollUp (⟨[c 16, c 1, c 2, c 3, c 4, c 5, c 6, c 7, c 8, c 9, c 10, c 11, c 12, c 13, c 14, c 15], 1, 2, 9⟩ : CLI_HISTORY)).1 :: scrollUpSeq (HistoryScrollUp (⟨[c 16, c 1, c 2, c 3, c 4, c 5, c 6, c 7, c 8, c 9, c 10, c 11, c 12, c 13, c 14, c 15], 1, 2, 9⟩ : CLI_HISTORY)).2 7 :=
      scrollUpSeq_succ (⟨[c 16, c 1, c 2, c 3, c 4, c 5, c 6, c 7, c 8, c 9, c 10, c 11, c 12, c 13, c 14, c 15], 1, 2, 9⟩ : CLI_HISTORY) 7
    rw [hs, f9]
  have g7 : scrollUpSeq (⟨[c 16, c 1, c 2, c 3, c 4, c 5, c 6, c 7, c 8, c 9, c 10, c 11, c 12, c 13, c 14, c 15], 1, 2, 8⟩ : CLI_HISTORY) 7 = some (c 7) :: scrollUpSeq (⟨[c 16, c 1, c 2, c 3, c 4, c 5, c 6, c 7, c 8, c 9, c 10, c 11, c 12, c 13, c 14, c 15], 1, 2, 7⟩ : CLI_HISTORY) 6 := by
    have hs : scrollUpSeq (⟨[c 16, c 1, c 2, c 3, c 4, c 5, c 6, c 7, c 8, c 9, c 10, c 11, c 12, c 13, c 14, c 15], 1, 2, 8⟩ : CLI_HISTORY) 7
        = (HistoryScrollUp (⟨[c 16, c 1, c 2, c 3, c 4, c 5, c 6, c 7, c 8, c 9, c 10, c 11, c 12, c 13, c 14, c 15], 1, 2, 8⟩ : CLI_HISTORY)).1 :: scrollUpSeq (HistoryScrollUp (⟨[c 16, c 1, c 2, c 3, c 4, c 5, c 6, c 7, c 8, c 9, c 10, c 11, c 12, c 13, c 14, c 15], 1, 2, 8⟩ : CLI_HISTORY)).2 6 :=
      scrollUpSeq_succ (⟨[c 16, c 1, c 2, c 3, c 4, c 5, c 6, c 7, c 8, c 9, c 10, c 11, c 12, c 13, c 14, c 15], 1, 2, 8⟩ : CLI_HISTORY) 6
    rw [hs, f10]
  have g6 : scrollUpSeq (⟨[c 16, c 1, c 2, c 3, c 4, c 5, c 6, c 7, c 8, c 9, c 10, c 11, c 12, c 13, c 14, c 15], 1, 2, 7⟩ : CLI_HISTORY) 6 = some (c 6) :: scrollUpSeq (⟨[c 16, c 1, c 2, c 3, c 4, c 5, c 6, c 7, c 8, c 9, c 10, c 11, c 12, c 13, c 14, c 15], 1, 2, 6⟩ : CLI_HISTORY) 5 := by
    have hs : scrollUpSeq (⟨[c 16, c 1, c 2, c 3, c 4, c 5, c 6, c 7, c 8, c 9, c 10, c 11, c 12, c 13, c 14, c 15], 1, 2, 7⟩ : CLI_HISTORY) 6
        = (HistoryScrollUp (⟨[c 16, c 1, c 2, c 3, c 4, c 5, c 6, c 7, c 8, c 9, c 10, c 11, c 12, c 13, c 14, c 15], 1, 2, 7⟩ : CLI_HISTORY)).1 :: scrollUpSeq (HistoryScrollUp (⟨[c 16, c 1, c 2, c 3, c 4, c 5, c 6, c 7, c 8, c 9, c 10, c 11, c 12, c 13, c 14, c 15], 1, 2, 7⟩ : CLI_HISTORY)).2 5 :=
      scrollUpSeq_succ (⟨[c 16, c 1, c 2, c 3, c 4, c 5, c 6, c 7, c 8, c 9, c 10, c 11, c 12, c 13, c 14, c 15], 1, 2, 7⟩ : CLI_HISTORY) 5
    rw [hs, f11]
  have g5 : scrollUpSeq (⟨[c 16, c 1, c 2, c 3, c 4, c 5, c 6, c 7, c 8, c 9, c 10, c 11, c 12, c 13, c 14, c 15], 1, 2, 6⟩ : CLI_HISTORY) 5 = some (c 5) :: scrollUpSeq (⟨[c 16, c 1, c 2, c 3, c 4, c 5, c 6, c 7, c 8, c 9, c 10, c 11, c 12, c 13, c 14, c 15], 1, 2, 5⟩ : CLI_HISTORY) 4 := by
    have hs : scrollUpSeq (⟨[c 16, c 1, c 2, c 3, c 4, c 5, c 6, c 7, c 8, c 9, c 10, c 11, c 12, c 13, c 14, c 15], 1, 2, 6⟩ : CLI_HISTORY) 5
        = (HistoryScrollUp (⟨[c 16, c 1, c 2, c 3, c 4, c 5, c 6, c 7, c 8, c 9, c 10, c 11, c 12, c 13, c 14, c 15], 1, 2, 6⟩ : CLI_HISTORY)).1 :: scrollUpSeq (HistoryScrollUp (⟨[c 16, c 1, c 2, c 3, c 4, c 5, c 6, c 7, c 8, c 9, c 10, c 11, c 12, c 13, c 14, c 15], 1, 2, 6⟩ : CLI_HISTORY)).2 4 :=
      scrollUpSeq_succ (⟨[c 16, c 1, c 2, c 3, c 4, c 5, c 6, c 7, c 8, c 9, c 10, c 11, c 12, c 13, c 14, c 15], 1, 2, 6⟩ : CLI_HISTORY) 4
    rw [hs, f12]
  have g4 : scrollUpSeq (⟨[c 16, c 1, c 2, c 3, c 4, c 5, c 6, c 7, c 8, c 9, c 10, c 11, c 12, c 13, c 14, c 15], 1, 2, 5⟩ : CLI_HISTORY) 4 = some (c 4) :: scrollUpSeq (⟨[c 16, c 1, c 2, c 3, c 4, c 5, c 6, c 7, c 8, c 9, c 10, c 11, c 12, c 13, c 14, c 15], 1, 2, 4⟩ : CLI_HISTORY) 3 := by
    have hs : scrollUpSeq (⟨[c 16, c 1, c 2, c 3, c 4, c 5, c 6, c 7, c 8, c 9, c 10, c 11, c 12, c 13, c 14, c 15], 1, 2, 5⟩ : CLI_HISTORY) 4
        = (HistoryScrollUp (⟨[c 16, c 1, c 2, c 3, c 4, c 5, c 6, c 7, c 8, c 9, c 10, c 11, c 12, c 13, c 14, c 15], 1, 2, 5⟩ : CLI_HISTORY)).1 :: scrollUpSeq (HistoryScrollUp (⟨[c 16, c 1, c 2, c 3, c 4, c 5, c 6, c 7, c 8, c 9, c 10, c 11, c 12, c 13, c 14, c 15], 1, 2, 5⟩ : CLI_HISTORY)).2 3 :=
      scrollUpSeq_succ (⟨[c 16, c 1, c 2, c 3, c 4, c 5, c 6, c 7, c 8, c 9, c 10, c 11, c 12, c 13, c 14, c 15], 1, 2, 5⟩ : CLI_HISTORY) 3
    rw [hs, f13]
  have g3 : scrollUpSeq (⟨[c 16, c 1, c 2, c 3, c 4, c 5, c 6, c 7, c 8, c 9, c 10, c 11, c 12, c 13, c 14, c 15], 1, 2, 4⟩ : CLI_HISTORY) 3 = some (c 3) :: scrollUpSeq (⟨[c 16, c 1, c 2, c 3, c 4, c 5, c 6, c 7, c 8, c 9, c 10, c 11, c 12, c 13, c 14, c 15], 1, 2, 3⟩ : CLI_HISTORY) 2 := by
    have hs : scrollUpSeq (⟨[c 16, c 1, c 2, c 3, c 4, c 5, c 6, c 7, c 8, c 9, c 10, c 11, c 12, c 13, c 14, c 15], 1, 2, 4⟩ : CLI_HISTORY) 3
        = (HistoryScrollUp (⟨[c 16, c 1, c 2, c 3, c 4, c 5, c 6, c 7, c 8, c 9, c 10, c 11, c 12, c 13, c 14, c 15], 1, 2, 4⟩ : CLI_HISTORY)).1 :: scrollUpSeq (HistoryScrollUp (⟨[c 16, c 1, c 2, c 3, c 4, c 5, c 6, c 7, c 8, c 9, c 10, c 11, c 12, c 13, c 14, c 15], 1, 2, 4⟩ : CLI_HISTORY)).2 2 :=
      scrollUpSeq_succ (⟨[c 16, c 1, c 2, c 3, c 4, c 5, c 6, c 7, c 8, c 9, c 10, c 11, c 12, c 13, c 14, c 15], 1, 2, 4⟩ : CLI_HISTORY) 2
    rw [hs, f14]
  have g2 : scrollUpSeq (⟨[c 16, c 1, c 2, c 3, c 4, c 5, c 6, c 7, c 8, c 9, c 10, c 11, c 12, c 13, c 14, c 15], 1, 2, 3⟩ : CLI_HISTORY) 2 = some (c 2) :: scrollUpSeq (⟨[c 16, c 1, c 2, c 3, c 4, c 5, c 6, c 7, c 8, c 9, c 10, c 11, c 12, c 13, c 14, c 15], 1, 2, 2⟩ : CLI_HISTORY) 1 := by
    have hs : scrollUpSeq (⟨[c 16, c 1, c 2, c 3, c 4, c 5, c 6, c 7, c 8, c 9, c 10, c 11, c 12, c 13, c 14, c 15], 1, 2, 3⟩ : CLI_HISTORY) 2
        = (HistoryScrollUp (⟨[c 16, c 1, c 2, c 3, c 4, c 5, c 6, c 7, c 8, c 9, c 10, c 11, c 12, c 13, c 14, c 15], 1, 2, 3⟩ : CLI_HISTORY)).1 :: scrollUpSeq (HistoryScrollUp (⟨[c 16, c 1, c 2, c 3, c 4, c 5, c 6, c 7, c 8, c 9, c 10, c 11, c 12, c 13, c 14, c 15], 1, 2, 3⟩ : CLI_HISTORY)).2 1 :=
      scrollUpSeq_succ (⟨[c 16, c 1, c 2, c 3, c 4, c 5, c 6, c 7, c 8, c 9, c 10, c 11, c 12, c 13, c 14, c 15], 1, 2, 3⟩ : CLI_HISTORY) 1
    rw [hs, f15]
  have g1 : scrollUpSeq (⟨[c 16, c 1, c 2, c 3, c 4, c 5, c 6, c 7, c 8, c 9, c 10, c 11, c 12, c 13, c 14, c 15], 1, 2, 2⟩ : CLI_HISTORY) 1 = [none] := by
    have hs : scrollUpSeq (⟨[c 16, c 1, c 2, c 3, c 4, c 5, c 6, c 7, c 8, c 9, c 10, c 11, c 12, c 13, c 14, c 15], 1, 2, 2⟩ : CLI_HISTORY) 1
        = (HistoryScrollUp (⟨[c 16, c 1, c 2, c 3, c 4, c 5, c 6, c 7, c 8, c 9, c 10, c 11, c 12, c 13, c 14, c 15], 1, 2, 2⟩ : CLI_HISTORY)).1 :: scrollUpSeq (HistoryScrollUp (⟨[c 16, c 1, c 2, c 3, c 4, c 5, c 6, c 7, c 8, c 9, c 10, c 11, c 12, c 13, c 14, c 15], 1, 2, 2⟩ : CLI_HISTORY)).2 0 :=
      scrollUpSeq_succ (⟨[c 16, c 1, c 2, c 3, c 4, c 5, c 6, c 7, c 8, c 9, c 10, c 11, c 12, c 13, c 14, c 15], 1, 2, 2⟩ : CLI_HISTORY) 0
    rw [hs, f16]
    simp [scrollUpSeq]
  rw [hall, g16, g15, g14, g13, g12, g11, g10, g9, g8, g7, g6, g5, g4, g3, g2, g1]

set_option maxRecDepth 8000 in
/-- Witness for C8 with the seventeen one-byte commands `"A" .. "Q"`. -/
theorem C8_history_capacity_witness :
    scrollUpSeq (historyAppendAll historyInitState [[65], [66], [67], [68], [69], [70], [71], [72], [73], [74], [75], [76], [77], [78], [79], [80], [81]]) 16
      = [some [81], some [80], some [79], some [78], some [77], some [76], some [75], some [74], some [73], some [72], some [71], some [70], some [69], some [68], some [67], none] :=
  C8_history_capacity (fun i => [65 + i]) (by decide) (by decide) (by decide) (by decide)
    (by decide)

set_option maxRecDepth 8000 in
/-- Counterexample to C8 as frozen: after appending the seventeen distinct
commands `"A" .. "Q"`, sixteen scroll-up calls do not return the sixteen most
recent commands — the sixteenth call returns `NULL`, and `"B"` (the
sixteenth-most-recent command) is never returned. -/
theorem C8_history_capacity_cex :
    scrollUpSeq (historyAppendAll historyInitState [[65], [66], [67], [68], [69], [70], [71], [72], [73], [74], [75], [76], [77], [78], [79], [80], [81]]) 16
        ≠ [some [81], some [80], some [79], some [78], some [77], some [76], some [75], some [74], some [73], some [72], some [71], some [70], some [69], some [68], some [67], some [66]] ∧
    some [66] ∉ scrollUpSeq (historyAppendAll historyInitState [[65], [66], [67], [68], [69], [70], [71], [72], [73], [74], [75], [76], [77], [78], [79], [80], [81]]) 16 := by
  decide

/-! ## Edit line (claim C9, src/services/cli/source/cli_private.c)

Embeds `CliProcessInputChar`, `CliInsertChar`, `CliDeleteCharAtCursor` and the
cursor-movement cases over the `EditLine` structure.  The byte buffer is a
fixed-length list (`APP_CFG_CLI_MAX_CMD_LENGTH` entries); terminal output and
the `HistoryAppend` call on carriage return are not modelled.  `rxAvail` is
the value `CliGetNumCharAvailable` would return (0 when typing
interactively), `echo` the session's echo flag. -/

/-- The `EditLine` structure. -/
structure EditLine where
  pBuffer : List Nat
  indexCur : Nat
  indexEnd : Nat
  numCharsToPrint : Nat
  deriving DecidableEq

/-- The right-shift loop of `CliInsertChar`:
`for (i = indexEnd; i > indexInputChar; i--) pBuffer[i] = pBuffer[i-1]`. -/
def shiftRight (buf : List Nat) (idx : Nat) : Nat → List Nat
  | 0 => buf
  | i + 1 =>
      if idx < i + 1 then shiftRight (buf.set (i + 1) (buf.getD i 0)) idx i else buf

/-- The left-copy loop of `CliDeleteCharAtCursor`
(`for (i = indexCur; i < indexEnd - 1; i++) pBuffer[i] = pBuffer[i+1]`),
with the iteration count taken as fuel. -/
def copyLeft (buf : List Nat) (cur : Nat) : Nat → List Nat
  | 0 => buf
  | n + 1 => copyLeft (buf.set cur (buf.getD (cur + 1) 0)) (cur + 1) n

/-- The buffer-mutation phase of `CliInsertChar`: with room left, make a gap
at `indexCur + numCharsToPrint`, store the byte there and defer its echo. -/
def cliInsertPhase1 (e : EditLine) (c : Nat) : EditLine :=
  if e.indexEnd < APP_CFG_CLI_MAX_CMD_LENGTH - 1 then
    ⟨(shiftRight e.pBuffer (e.indexCur + e.numCharsToPrint) (e.indexEnd + 1)).set
        (e.indexCur + e.numCharsToPrint) c,
     e.indexCur, e.indexEnd + 1, e.numCharsToPrint + 1⟩
  else e

/-- First half of the echo-flush branch of `CliInsertChar`: print the deferred
characters, advancing the cursor past them when they fit, and clear
`numCharsToPrint`. -/
def cliEchoA (e : EditLine) : EditLine :=
  if e.indexCur + e.numCharsToPrint < APP_CFG_CLI_MAX_CMD_LENGTH then
    ⟨e.pBuffer, e.indexCur + e.numCharsToPrint, e.indexEnd, 0⟩
  else ⟨e.pBuffer, e.indexCur, e.indexEnd, 0⟩

/-- Second half of the echo-flush branch: reprint the tail after the cursor,
or — when nothing follows the cursor — pull `indexEnd` back to it. -/
def cliEchoB (e : EditLine) : EditLine :=
  if e.indexCur < e.indexEnd then e
  else ⟨e.pBuffer, e.indexCur, e.indexCur, e.numCharsToPrint⟩

/-- `CliInsertChar`: the echo-flush branch runs when the receive buffer is
empty and echo is on. -/
def CliInsertChar (echo : Bool) (rxAvail : Nat) (e : EditLine) (c : Nat) : EditLine :=
  if rxAvail = 0 && echo then cliEchoB (cliEchoA (cliInsertPhase1 e c))
  else cliInsertPhase1 e c

/-- `CliDeleteCharAtCursor`: with the cursor past column 0, step it back,
close the gap, and decrement `indexEnd` (`uint32_t` arithmetic). -/
def CliDeleteCharAtCursor (e : EditLine) : EditLine :=
  if 0 < e.indexCur then
    ⟨copyLeft e.pBuffer (e.indexCur - 1) ((e.indexEnd + M32 - 1) % M32 - (e.indexCur - 1)),
     e.indexCur - 1, (e.indexEnd + M32 - 1) % M32, e.numCharsToPrint⟩
  else e

/-- `iscntrl` over ASCII. -/
def iscntrlB (c : Nat) : Bool := c < 32 || c == 127

/-- `CliProcessInputChar`: printable bytes are inserted; control bytes drive
cursor movement, deletion, kill, carriage return (status 0), reset and break.
Returned pair is (status, edit line). -/
def CliProcessInputChar (echo : Bool) (rxAvail : Nat) (e : EditLine) (c : Nat) :
    Nat × EditLine :=
  if ¬ iscntrlB c then (1, CliInsertChar echo rxAvail e c)
  else if c = 1 then (1, ⟨e.pBuffer, 0, e.indexEnd, e.numCharsToPrint⟩)
  else if c = 5 then (1, ⟨e.pBuffer, e.indexEnd, e.indexEnd, e.numCharsToPrint⟩)
  else if c = 2 ∨ c = 16 then
    (1, if 0 < e.indexCur then ⟨e.pBuffer, e.indexCur - 1, e.indexEnd, e.numCharsToPrint⟩
        else e)
  else if c = 6 ∨ c = 14 then
    (1, if e.indexCur < APP_CFG_CLI_MAX_CMD_LENGTH - 1 ∧ e.indexCur < e.indexEnd then
          ⟨e.pBuffer, e.indexCur + 1, e.indexEnd, e.numCharsToPrint⟩
        else e)
  else if c = 11 then (1, ⟨e.pBuffer, e.indexCur, e.indexCur, e.numCharsToPrint⟩)
  else if c = 8 ∨ c = 127 then (1, CliDeleteCharAtCursor e)
  else if c = 13 ∨ c = 10 then
    (0, ⟨e.pBuffer.set e.indexEnd 0, e.indexCur, e.indexEnd, e.numCharsToPrint⟩)
  else if c = 12 then (1, ⟨e.pBuffer, 0, 0, 0⟩)
  else if c = 3 then (0, ⟨e.pBuffer.set 0 0, e.indexCur, e.indexEnd, e.numCharsToPrint⟩)
  else (1, e)

/-- Feed a byte sequence through `CliProcessInputChar` with an empty receive
buffer (interactive typing). -/
def cliProcessChars (echo : Bool) (e : EditLine) : List Nat → EditLine
  | [] => e
  | c :: rest => cliProcessChars echo (CliProcessInputChar echo 0 e c).2 rest

/-- The logical line: the bytes the carriage-return handler would terminate
and hand to the dispatcher, `pBuffer[0 .. indexEnd)`. -/
def cliLogicalLine (e : EditLine) : List Nat := e.pBuffer.take e.indexEnd

/-- The edit line after `CliEditLineReset` in a zeroed session. -/
def editLineInit : EditLine :=
  ⟨List.replicate APP_CFG_CLI_MAX_CMD_LENGTH 0, 0, 0, 0⟩

/-- C9 (amended): from a freshly reset edit line with echo on and an empty
receive buffer, typing `hello`, three backspaces (`^H`) and `p` leaves the
logical line holding exactly `"hep"`: each backspace only steps `indexCur`
and `indexEnd` back, and the insert of `p` lands at the cursor, after which
the echo branch pulls `indexEnd` down to the cursor. -/
theorem C9_editline_scenario :
    cliLogicalLine (cliProcessChars true editLineInit
        [104, 101, 108, 108, 111, 8, 8, 8, 112]) = [104, 101, 112] := by
  decide

/-- Counterexample to C9 as frozen: the same scenario does not leave
`"help"` (104 101 108 112) in the logical line. -/
theorem C9_editline_scenario_cex :
    cliLogicalLine (cliProcessChars true editLineInit
        [104, 101, 108, 108, 111, 8, 8, 8, 112]) ≠ [104, 101, 108, 112] := by
  decide

/-! ## Parameter parsing and dispatch (claim C7,
src/services/cli/source/cli_private.c)

Embeds `CliScanParams`, `CliParseParams` and `CliDispatch`.  The shared
`strtok` cursor is the list of bytes remaining after the command-name token;
each call consumes leading delimiters and one token.  `Args` slot writes are
recorded as (index, datatype, token) events — the claim concerns which slots
get written and whether the handler runs, not the numeric values — and the
`INFO_MSG("Invalid Arguments")` / `WARN_MSG("Extra parameter ...")` reports
are recorded as parse events.  `sscanf` success is modelled from the C
standard library: `%li` succeeds iff the token starts with an optional sign
followed by a digit, `%lf` likewise allowing a leading decimal point, `%c`
iff the token is nonempty. -/

/-- Modelled from the spec: `APP_CFG_CLI_MAX_PARAM_COUNT`, the `Args` slot
count (`MAX_PARAMS`); `app_cfg.h` is not part of this repository. -/
def APP_CFG_CLI_MAX_PARAM_COUNT : Nat := 8

/-- `DATATYPE_STRING` (cli_private.c line 32). -/
def DATATYPE_STRING : Nat := 0

/-- `DATATYPE_FLOAT` (cli_private.c line 34). -/
def DATATYPE_FLOAT : Nat := 1

/-- `DATATYPE_INTEGER` (cli_private.c line 36). -/
def DATATYPE_INTEGER : Nat := 2

/-- `DATATYPE_CHAR` (cli_private.c line 38). -/
def DATATYPE_CHAR : Nat := 3

/-- Observable events of a parse: the "Invalid Arguments" report, one
"Extra parameter ignored" warning per drained token, and the handler call. -/
inductive ParseEvent where
  | invalidArgs
  | extraParam (t : List Nat)
  | handler
  deriving DecidableEq

/-- The observable `Args` state: the parsed-value count `c` and the sequence
of slot writes (index, datatype, token). -/
structure ArgsM where
  c : Nat
  writes : List (Nat × Nat × List Nat)
  deriving DecidableEq

/-- One `strtok(NULL, delims)` call on the remaining bytes: skip leading
delimiters; at end of string return `NULL`, otherwise return the token and
the bytes after it. -/
def strtokNext (delims : List Nat) (s : List Nat) : Option (List Nat) × List Nat :=
  if s.dropWhile delims.contains = [] then (none, [])
  else (some ((s.dropWhile delims.contains).takeWhile (fun c => !delims.contains c)),
        (s.dropWhile delims.contains).dropWhile (fun c => !delims.contains c))

/-- ASCII digit test. -/
def isdigitB (c : Nat) : Bool := decide (48 ≤ c) && decide (c ≤ 57)

/-- Success of `sscanf(token, "%li", ...)`: an optional sign followed by a
digit (modelled from the C standard library). -/
def sscanfLiOk : List Nat → Bool
  | [] => false
  | c :: rest =>
      if c == 43 || c == 45 then
        match rest with
        | [] => false
        | d :: _ => isdigitB d
      else isdigitB c

/-- Success of `sscanf(token, "%lf", ...)`: an optional sign, then a digit or
a decimal point followed by a digit (modelled from the C standard library). -/
def sscanfLfOk : List Nat → Bool
  | [] => false
  | c :: rest =>
      if c == 43 || c == 45 then
        match rest with
        | [] => false
        | d :: rest2 =>
            if d == 46 then
              match rest2 with
              | [] => false
              | d2 :: _ => isdigitB d2
            else isdigitB d
      else if c == 46 then
        match rest with
        | [] => false
        | d :: _ => isdigitB d
      else isdigitB c

/-- A successful slot write: store the token for slot `i` and count it
(`pArgs->v[argIndex] = ...; pArgs->c++`). -/
def writeArg (a : ArgsM) (i dt : Nat) (t : List Nat) : ArgsM :=
  ⟨a.c + 1, a.writes ++ [(i, dt, t)]⟩

/-- `CliScanParams`: take the next token with the given delimiter set; a
missing token leaves status 0 and writes nothing; otherwise strings always
store, floats/integers store only when `sscanf` succeeds (status 1
otherwise), chars store iff the token is nonempty, and an unknown datatype is
status 1.  Returns (status, remaining bytes, args). -/
def CliScanParams (delims : List Nat) (s : List Nat) (a : ArgsM)
    (argIndex dataType : Nat) : Nat × List Nat × ArgsM :=
  match strtokNext delims s with
  | (none, s2) => (0, s2, a)
  | (some t, s2) =>
      if dataType = DATATYPE_STRING then (0, s2, writeArg a argIndex dataType t)
      else if dataType = DATATYPE_FLOAT then
        if sscanfLfOk t then (0, s2, writeArg a argIndex dataType t) else (1, s2, a)
      else if dataType = DATATYPE_INTEGER then
        if sscanfLiOk t then (0, s2, writeArg a argIndex dataType t) else (1, s2, a)
      else if dataType = DATATYPE_CHAR then
        if t ≠ [] then (0, s2, writeArg a argIndex dataType t) else (1, s2, a)
      else (1, s2, a)

/-- The pattern loop of `CliParseParams` over the enumerated pattern
characters: each recognised character overwrites `status` with its scan's
result (`s/S` strings with delimiters space/quote, `f/F` floats, `d/x/D/X`
integers, `c/C` chars with delimiters space/comma/semicolon/tab); other
characters leave everything unchanged. -/
def cliParamLoop : List (Nat × Nat) → Nat → List Nat → ArgsM → Nat × List Nat × ArgsM
  | [], status, s, a => (status, s, a)
  | (i, pc) :: rest, status, s, a =>
      if pc = 115 ∨ pc = 83 then
        match CliScanParams [32, 34, 39] s a i DATATYPE_STRING with
        | (st2, s2, a2) => cliParamLoop rest st2 s2 a2
      else if pc = 102 ∨ pc = 70 then
        match CliScanParams [32, 44, 59, 9] s a i DATATYPE_FLOAT with
        | (st2, s2, a2) => cliParamLoop rest st2 s2 a2
      else if pc = 100 ∨ pc = 120 ∨ pc = 68 ∨ pc = 88 then
        match CliScanParams [32, 44, 59, 9] s a i DATATYPE_INTEGER with
        | (st2, s2, a2) => cliParamLoop rest st2 s2 a2
      else if pc = 99 ∨ pc = 67 then
        match CliScanParams [32, 44, 59, 9] s a i DATATYPE_CHAR with
        | (st2, s2, a2) => cliParamLoop rest st2 s2 a2
      else cliParamLoop rest status s a

/-- The drain loop of `CliParseParams`
(`while (1) { strtok(NULL, " ,;\t"); ... }`), with the remaining byte count
as fuel: every found token consumes at least one byte, so the fuel never runs
out before `strtok` returns `NULL`. -/
def drainAux : Nat → List Nat → List (List Nat)
  | 0, _ => []
  | fuel + 1, s =>
      match strtokNext [32, 44, 59, 9] s with
      | (none, _) => []
      | (some t, s2) => t :: drainAux fuel s2

/-- All tokens the drain loop reports. -/
def drainTokens (s : List Nat) : List (List Nat) := drainAux s.length s

/-- The bytes left on the `strtok` cursor after the pattern loop (what the
drain loop starts from). -/
def cliParseRest (pParamList : List Nat) (s : List Nat) (a : ArgsM) : List Nat :=
  if StrnLen pParamList APP_CFG_CLI_MAX_PARAM_COUNT ≤ APP_CFG_CLI_MAX_PARAM_COUNT then
    (cliParamLoop ((pParamList.take
        (StrnLen pParamList APP_CFG_CLI_MAX_PARAM_COUNT)).enum) 0 s a).2.1
  else s

/-- `CliParseParams`: measure the pattern (status 1 if it exceeds
`APP_CFG_CLI_MAX_PARAM_COUNT`, skipping the loop), run the pattern loop,
report "Invalid Arguments" on a nonzero final status (unless silent), then
drain the leftover tokens with one warning each (unless silent; the tokens
are still consumed).  Returns (status, args, events). -/
def CliParseParams (pParamList : List Nat) (s : List Nat) (a : ArgsM)
    (silent : Bool) : Nat × ArgsM × List ParseEvent :=
  if StrnLen pParamList APP_CFG_CLI_MAX_PARAM_COUNT ≤ APP_CFG_CLI_MAX_PARAM_COUNT then
    match cliParamLoop ((pParamList.take
        (StrnLen pParamList APP_CFG_CLI_MAX_PARAM_COUNT)).enum) 0 s a with
    | (status, s2, a2) =>
        (status, a2,
          (if status ≠ 0 ∧ silent = false then [ParseEvent.invalidArgs] else [])
            ++ (if silent = false then (drainTokens s2).map ParseEvent.extraParam else []))
  else
    (1, a,
      (if silent = false then [ParseEvent.invalidArgs] else [])
        ++ (if silent = false then (drainTokens s).map ParseEvent.extraParam else []))

/-- `CliDispatch`: parse the record's parameter pattern against the remaining
bytes; on status 0 call the handler (recording the call and returning its
result), otherwise return the parse status. -/
def CliDispatch (r : Command) (s : List Nat) (a : ArgsM) (silent : Bool) :
    Int × ArgsM × List ParseEvent :=
  match CliParseParams r.pParamList s a silent with
  | (st, a2, msgs) =>
      if st = 0 then (r.pfFuncResult, a2, msgs ++ [ParseEvent.handler])
      else ((st : Int), a2, msgs)

lemma parseParams_msgs (p : List Nat) (s : List Nat) (a : ArgsM)
    (h : (CliParseParams p s a false).1 ≠ 0) :
    (CliParseParams p s a false).2.2
      = ParseEvent.invalidArgs
          :: (drainTokens (cliParseRest p s a)).map ParseEvent.extraParam := by
  by_cases hb : StrnLen p APP_CFG_CLI_MAX_PARAM_COUNT ≤ APP_CFG_CLI_MAX_PARAM_COUNT
  · rcases hcp : cliParamLoop ((p.take (StrnLen p APP_CFG_CLI_MAX_PARAM_COUNT)).enum) 0 s a
      with ⟨st, s2, a2⟩
    unfold CliParseParams at h ⊢
    rw [if_pos hb, hcp] at h ⊢
    unfold cliParseRest
    rw [if_pos hb, hcp]
    simp at h
    simp [h]
  · unfold CliParseParams at h ⊢
    rw [if_neg hb] at h ⊢
    unfold cliParseRest
    rw [if_neg hb]
    simp

/-- C7 (amended): whenever `CliParseParams` reports failure — which, because
each pattern character overwrites `status`, happens exactly when the *last*
scan-performing pattern character fails, not when any earlier one does —
`CliDispatch` returns that nonzero status, never calls the handler, the
"Invalid Arguments" report is emitted, and every token left on the line is
drained with one ignored-parameter warning. -/
theorem C7_parse_failure_aborts (r : Command) (s : List Nat) (a : ArgsM)
    (hfail : (CliParseParams r.pParamList s a false).1 ≠ 0) :
    (CliDispatch r s a false).1 = ((CliParseParams r.pParamList s a false).1 : Int) ∧
    ParseEvent.handler ∉ (CliDispatch r s a false).2.2 ∧
    (CliDispatch r s a false).2.2
      = ParseEvent.invalidArgs
          :: (drainTokens (cliParseRest r.pParamList s a)).map ParseEvent.extraParam := by
  have hm := parseParams_msgs r.pParamList s a hfail
  unfold CliDispatch
  rcases hpp : CliParseParams r.pParamList s a false with ⟨st, a2, msgs⟩
  rw [hpp] at hfail hm
  simp only at hfail hm ⊢
  rw [if_neg hfail]
  refine ⟨rfl, ?_, hm⟩
  rw [hm]
  simp

/-- Witness for C7 at the one-integer pattern `"d"` with the non-numeric
token `"abc"`. -/
theorem C7_parse_failure_aborts_witness :
    (CliDispatch ⟨[99, 109, 100], [100], 42, false⟩ [97, 98, 99] ⟨0, []⟩ false).1
        = ((CliParseParams [100] [97, 98, 99] ⟨0, []⟩ false).1 : Int) ∧
    ParseEvent.handler
        ∉ (CliDispatch ⟨[99, 109, 100], [100], 42, false⟩ [97, 98, 99] ⟨0, []⟩ false).2.2 ∧
    (CliDispatch ⟨[99, 109, 100], [100], 42, false⟩ [97, 98, 99] ⟨0, []⟩ false).2.2
      = ParseEvent.invalidArgs
          :: (drainTokens (cliParseRest [100] [97, 98, 99] ⟨0, []⟩)).map
              ParseEvent.extraParam :=
  C7_parse_failure_aborts ⟨[99, 109, 100], [100], 42, false⟩ [97, 98, 99] ⟨0, []⟩
    (by decide)

/-- Counterexample to C7 as frozen: for the two-integer pattern `"dd"` on the
line `"abc 5"`, scanning the first parameter fails (`"abc"` is not numeric),
yet because the second scan overwrites `status`, `CliParseParams` returns 0,
no "Invalid Arguments" report is emitted, and `CliDispatch` invokes the
handler. -/
theorem C7_parse_failure_aborts_cex :
    (CliScanParams [32, 44, 59, 9] [97, 98, 99, 32, 53] ⟨0, []⟩ 0 DATATYPE_INTEGER).1
        = 1 ∧
    (CliParseParams [100, 100] [97, 98, 99, 32, 53] ⟨0, []⟩ false).1 = 0 ∧
    ParseEvent.invalidArgs
        ∉ (CliParseParams [100, 100] [97, 98, 99, 32, 53] ⟨0, []⟩ false).2.2 ∧
    (CliDispatch ⟨[99, 109, 100], [100, 100], 42, false⟩ [97, 98, 99, 32, 53]
        ⟨0, []⟩ false).1 = 42 ∧
    ParseEvent.handler
        ∈ (CliDispatch ⟨[99, 109, 100], [100, 100], 42, false⟩ [97, 98, 99, 32, 53]
            ⟨0, []⟩ false).2.2 := by
  decide

end EnergyFw
